import Mathlib

/-!
Verification of the AIR Blackbox Gateway core against its specification.

The Go sources are shallowly embedded as executable Lean definitions:

* pure string / integer functions (failure classification, Jaccard
  similarity, latency quantiles, tool filtering, model downgrade) are
  translated directly;
* the cryptographic primitives SHA-256 and HMAC-SHA256 are kept as
  opaque function parameters `sha : String → String` and
  `hmac : String → String → String` (key, message); every structural
  property is proved for all instantiations, and the collision-freeness
  facts a tamper-detection statement needs appear as explicit hypotheses
  at the concrete strings involved;
* Go `time.Time` values are modelled as abstract integer ticks;
* stateful components (audit chain, session manager, analytics tracker,
  the proxy request pipeline) are modelled by explicit state passing;
  maps become association lists;
* outbound HTTP (upstream provider, approval webhook) is modelled by
  oracle arguments: `Option UpstreamResp` and `Option Bool`, with `none`
  standing for a transport failure / timeout;
* Go float64 arithmetic (similarity scores, cost estimates) is modelled
  by exact rationals; the properties claimed do not depend on rounding.
-/

set_option allowUnsafeReducibility true

attribute [semireducible] Rat.mul Rat.div Rat.inv Rat.add Rat.sub

namespace AirGateway

/-! ## String helpers (models of Go strings.ToLower / Contains / Fields) -/

/-- Model of Go strings.ToLower. Lean's Char.toLower lowercases exactly
the ASCII range; all strings appearing in the claims are ASCII. -/
def strToLower (s : String) : String :=
  String.mk (s.toList.map Char.toLower)

/-- True when the pattern list is an initial segment of the text list. -/
def matchLead : List Char → List Char → Bool
  | [], _ => true
  | _ :: _, [] => false
  | a :: as, b :: bs => a == b && matchLead as bs

/-- True when the pattern occurs contiguously inside the text
(model of Go strings.Contains on the underlying bytes). -/
def hasSub (sub : List Char) : List Char → Bool
  | [] => sub.isEmpty
  | c :: t => matchLead sub (c :: t) || hasSub sub t

/-- Model of Go strings.Contains. -/
def strContains (s sub : String) : Bool :=
  hasSub sub.toList s.toList

/-- Model of guardrails.containsAny: true if s contains any of the substrings. -/
def containsAny (s : String) (subs : List String) : Bool :=
  subs.any (fun sub => strContains s sub)

/-- Whitespace recognised by Go strings.Fields (ASCII portion of unicode.IsSpace). -/
def isSpaceChar (c : Char) : Bool :=
  c == ' ' || c == '\t' || c == '\n' || c == '\r' || c == '\x0b' || c == '\x0c'

/-- Splits a character list at whitespace; empty groups are kept and
filtered out by strFields. -/
def fieldsSplit (l : List Char) : List (List Char) :=
  l.foldr
    (fun c acc =>
      if isSpaceChar c then [] :: acc
      else
        match acc with
        | [] => [[c]]
        | w :: ws => (c :: w) :: ws)
    [[]]

/-- Model of Go strings.Fields: the maximal whitespace-free substrings. -/
def strFields (s : String) : List String :=
  ((fieldsSplit s.toList).filter (fun w => !w.isEmpty)).map (fun w => String.mk w)

/-! ## guardrails/failures.go — ClassifyFailure -/

/-- Translation of guardrails.ClassifyFailure: maps an HTTP status code
and error body to a failure category, checking status codes first and
falling back to case-insensitive substring matching on the body. -/
def ClassifyFailure (statusCode : Int) (errorBody : String) : String :=
  if statusCode = 429 then "rate_limit"
  else if statusCode = 401 ∨ statusCode = 403 then "auth_error"
  else if statusCode = 500 ∨ statusCode = 502 ∨ statusCode = 503 then "server_error"
  else if statusCode = 504 then "timeout"
  else if containsAny (strToLower errorBody) ["timeout", "deadline exceeded", "context deadline"] then
    "timeout"
  else if statusCode = 400 then
    if containsAny (strToLower errorBody)
        ["context_length", "context length", "max_tokens", "maximum context", "token limit"] then
      "context_length"
    else if containsAny (strToLower errorBody)
        ["content_policy", "content policy", "content filter", "filtered", "violates", "safety"] then
      "content_filter"
    else "invalid_request"
  else if 400 ≤ statusCode ∧ statusCode < 500 then "invalid_request"
  else "unknown"

/-- The classification function exactly as the specification words it
(clauses read in order), with the spec's enumerated phrase lists:
context-length phrases "context length" / "max_tokens" / "token limit" /
"maximum context", content-filter phrases "content_policy" /
"content filter" / "filtered" / "violates" / "safety". -/
def classifyFailureClaim (statusCode : Int) (errorBody : String) : String :=
  if statusCode = 429 then "rate_limit"
  else if statusCode = 401 ∨ statusCode = 403 then "auth_error"
  else if statusCode = 500 ∨ statusCode = 502 ∨ statusCode = 503 then "server_error"
  else if statusCode = 504 ∨
      containsAny (strToLower errorBody) ["timeout", "deadline exceeded", "context deadline"] then
    "timeout"
  else if statusCode = 400 ∧ containsAny (strToLower errorBody)
      ["context length", "max_tokens", "token limit", "maximum context"] then
    "context_length"
  else if statusCode = 400 ∧ containsAny (strToLower errorBody)
      ["content_policy", "content filter", "filtered", "violates", "safety"] then
    "content_filter"
  else if 400 ≤ statusCode ∧ statusCode < 500 then "invalid_request"
  else "unknown"

/-- The claim's clause-ordered classification with the phrase lists the
code actually uses: the spec's lists extended by the variants
"context_length" (underscore) and "content policy" (space). -/
def classifyFailureAmended (statusCode : Int) (errorBody : String) : String :=
  if statusCode = 429 then "rate_limit"
  else if statusCode = 401 ∨ statusCode = 403 then "auth_error"
  else if statusCode = 500 ∨ statusCode = 502 ∨ statusCode = 503 then "server_error"
  else if statusCode = 504 ∨
      containsAny (strToLower errorBody) ["timeout", "deadline exceeded", "context deadline"] then
    "timeout"
  else if statusCode = 400 ∧ containsAny (strToLower errorBody)
      ["context_length", "context length", "max_tokens", "maximum context", "token limit"] then
    "context_length"
  else if statusCode = 400 ∧ containsAny (strToLower errorBody)
      ["content_policy", "content policy", "content filter", "filtered", "violates", "safety"] then
    "content_filter"
  else if 400 ≤ statusCode ∧ statusCode < 500 then "invalid_request"
  else "unknown"

/-! ## guardrails/similarity.go — word-level Jaccard similarity -/

/-- Model of guardrails.wordSet: the set of lowercase words of a string. -/
def wordSet (s : String) : Finset String :=
  (strFields (strToLower s)).toFinset

/-- Translation of guardrails.jaccardSimilarity. The Go float64 result
is modelled by an exact rational; intersection and union sizes are the
same finite cardinalities the Go map loops compute. -/
def jaccardSimilarity (a b : String) : ℚ :=
  let wordsA := wordSet a
  let wordsB := wordSet b
  if wordsA = ∅ ∧ wordsB = ∅ then 1
  else
    let intersection := (wordsA ∩ wordsB).card
    let union := wordsA.card + (wordsB \ wordsA).card
    if union = 0 then 1
    else (intersection : ℚ) / (union : ℚ)

/-! ## trust — audit chain (unnamed trust source, AuditChain) -/

/-- Translation of trust.ChainEntry. Timestamp is an abstract tick. -/
structure ChainEntry where
  sequence : Int
  runID : String
  recordHash : String
  prevHash : String
  signature : String
  timestamp : Int
deriving DecidableEq, Repr

instance : Inhabited ChainEntry := ⟨⟨0, "", "", "", "", 0⟩⟩

/-- JSON serialization of a chain entry, mirroring Go json.Marshal field
order on trust.ChainEntry. Timestamps are abstract ticks, so the
timestamp field is rendered as the tick number rather than RFC3339. -/
def ChainEntry.json (e : ChainEntry) : String :=
  "\x7b\"sequence\":" ++ toString e.sequence ++
  ",\"run_id\":\"" ++ e.runID ++
  "\",\"record_hash\":\"" ++ e.recordHash ++
  "\",\"prev_hash\":\"" ++ e.prevHash ++
  "\",\"signature\":\"" ++ e.signature ++
  "\",\"timestamp\":\"" ++ toString e.timestamp ++ "\"\x7d"

/-- The message string signed for a chain entry:
"sequence|run_id|record_hash|prev_hash" as in AuditChain.sign. -/
def sigMsg (e : ChainEntry) : String :=
  toString e.sequence ++ "|" ++ e.runID ++ "|" ++ e.recordHash ++ "|" ++ e.prevHash

/-- Translation of AuditChain.sign: HMAC-SHA256 of the signing message
under the chain secret; hmac is the opaque HMAC-SHA256 parameter. -/
def signEntry (hmac : String → String → String) (secret : String) (e : ChainEntry) : String :=
  hmac secret (sigMsg e)

/-- Translation of trust.AuditChain state (mutex dropped: the model is
sequential, which the chain mutex guarantees in Go). -/
structure AuditChain where
  secret : String
  entries : List ChainEntry
  last : String
  seq : Int
deriving DecidableEq, Repr

/-- Translation of trust.NewAuditChain. -/
def newAuditChain (secret : String) : AuditChain :=
  ⟨secret, [], "", 0⟩

/-- Translation of AuditChain.Append; sha is the opaque SHA-256 hex
parameter. Returns the new entry together with the updated chain. -/
def AuditChain.append (sha : String → String) (hmac : String → String → String)
    (ac : AuditChain) (runID recordJSON : String) (now : Int) : ChainEntry × AuditChain :=
  let seq := ac.seq + 1
  let recordHash := sha recordJSON
  let e0 : ChainEntry :=
    { sequence := seq, runID := runID, recordHash := recordHash,
      prevHash := ac.last, signature := "", timestamp := now }
  let e := { e0 with signature := signEntry hmac ac.secret e0 }
  (e, { ac with seq := seq, last := sha e.json, entries := ac.entries ++ [e] })

/-- Walks entries from a given expected previous hash, recomputing each
signature and link; first failure yields (false, sequence, reason).
This is the loop body of AuditChain.Verify. -/
def verifyFrom (sha : String → String) (hmac : String → String → String)
    (secret : String) (prevHash : String) : List ChainEntry → Bool × Int × Option String
  | [] => (true, 0, none)
  | e :: rest =>
    if e.prevHash ≠ prevHash then
      (false, e.sequence,
        some ("chain broken at sequence " ++ toString e.sequence ++ ": prev_hash mismatch"))
    else if e.signature ≠ signEntry hmac secret e then
      (false, e.sequence,
        some ("chain broken at sequence " ++ toString e.sequence ++ ": signature mismatch"))
    else
      verifyFrom sha hmac secret (sha e.json) rest

/-- Translation of AuditChain.Verify: an empty chain is valid; otherwise
walk the entries from the empty starting hash. -/
def AuditChain.verify (sha : String → String) (hmac : String → String → String)
    (ac : AuditChain) : Bool × Int × Option String :=
  verifyFrom sha hmac ac.secret "" ac.entries

/-- Builds a chain by repeated Append calls from a fresh chain:
items are (run_id, record JSON, timestamp) triples. -/
def appendAll (sha : String → String) (hmac : String → String → String)
    (secret : String) (items : List (String × String × Int)) : AuditChain :=
  items.foldl (fun ac it => (ac.append sha hmac it.1 it.2.1 it.2.2).2) (newAuditChain secret)

/-- The property Verify checks: starting from an expected previous hash,
every entry links to its predecessor's serialized hash and every
signature recomputes from the entry's public fields. -/
def chainOk (sha : String → String) (hmac : String → String → String)
    (secret : String) (prevHash : String) : List ChainEntry → Prop
  | [] => True
  | e :: rest =>
    e.prevHash = prevHash ∧ e.signature = signEntry hmac secret e ∧
      chainOk sha hmac secret (sha e.json) rest

/-- The hash that the entry after the given list must carry as its
prev_hash: the serialized hash of the last entry, or the starting hash
for an empty list. -/
def endHash (sha : String → String) (prevHash : String) : List ChainEntry → String
  | [] => prevHash
  | e :: rest => endHash sha (sha e.json) rest

/-! ## trust/export.go — evidence package and attestation -/

/-- Translation of trust.EvidencePackage. The compliance report is kept
opaque (its content never feeds the attestation claims; serialization is
abstracted by the encode parameter anyway). -/
structure EvidencePackage where
  exportedAt : Int
  gatewayID : String
  chainLength : Int
  chainValid : Bool
  chainBrokenAt : Int
  auditEntries : List ChainEntry
  complianceReport : Option String
  recordCount : Int
  timeRange : Int × Int
  attestation : String
deriving DecidableEq, Repr

/-- Translation of trust.signPackage: HMAC-SHA256 of the JSON-serialized
package; enc is the opaque json.Marshal parameter for packages. -/
def signPackage (hmac : String → String → String) (enc : EvidencePackage → String)
    (pkg : EvidencePackage) (secret : String) : String :=
  hmac secret (enc pkg)

/-- Translation of trust.GenerateEvidencePackage: collects the entries,
length, verification result and time range, signs the package with the
attestation field empty, and stores the signature. -/
def GenerateEvidencePackage (sha : String → String) (hmac : String → String → String)
    (enc : EvidencePackage → String) (chain : AuditChain)
    (compliance : Option String) (gatewayID secret : String) (now : Int) : EvidencePackage :=
  let entries := chain.entries
  let chainLen := chain.seq
  let v := chain.verify sha hmac
  let tr :=
    match entries.head?, entries.getLast? with
    | some h, some l => (h.timestamp, l.timestamp)
    | _, _ => ((0 : Int), (0 : Int))
  let pkg : EvidencePackage :=
    { exportedAt := now, gatewayID := gatewayID, chainLength := chainLen,
      chainValid := v.1, chainBrokenAt := v.2.1, auditEntries := entries,
      complianceReport := compliance, recordCount := chainLen,
      timeRange := tr, attestation := "" }
  { pkg with attestation := signPackage hmac enc pkg secret }

/-- Translation of trust.VerifyAttestation including its in-place
mutation: it saves the attestation, clears it, recomputes the signature,
restores the saved value, and compares. The second component is the
package as the function leaves it. -/
def verifyAttestationSt (hmac : String → String → String) (enc : EvidencePackage → String)
    (pkg : EvidencePackage) (secret : String) : Bool × EvidencePackage :=
  let savedAttestation := pkg.attestation
  let cleared := { pkg with attestation := "" }
  let expected := signPackage hmac enc cleared secret
  let restored := { cleared with attestation := savedAttestation }
  (savedAttestation == expected, restored)

/-- The boolean result of trust.VerifyAttestation. -/
def VerifyAttestation (hmac : String → String → String) (enc : EvidencePackage → String)
    (pkg : EvidencePackage) (secret : String) : Bool :=
  (verifyAttestationSt hmac enc pkg secret).1

/-! ## guardrails/config.go — configuration records -/

/-- Translation of guardrails.BudgetConfig. -/
structure BudgetConfig where
  maxSessionTokens : Int
  maxSessionCostUSD : ℚ
deriving DecidableEq, Repr, Inhabited

/-- Translation of guardrails.LoopConfig. -/
structure LoopConfig where
  similarPromptThreshold : ℚ
  maxSimilarPrompts : Int
  windowSeconds : Int
deriving DecidableEq, Repr, Inhabited

/-- Translation of guardrails.ToolConfig. -/
structure ToolConfig where
  maxRepeatCalls : Int
  repeatWindowSeconds : Int
deriving DecidableEq, Repr, Inhabited

/-- Translation of guardrails.RetryConfig. -/
structure RetryConfig where
  maxConsecutiveErrors : Int
deriving DecidableEq, Repr, Inhabited

/-- Translation of guardrails.AlertConfig. -/
structure AlertConfig where
  webhookURL : String
deriving DecidableEq, Repr, Inhabited

/-- Translation of guardrails.ToolFilterConfig. -/
structure ToolFilterConfig where
  enabled : Bool
  allowlist : List String
  blocklist : List String
deriving DecidableEq, Repr, Inhabited

/-- Translation of guardrails.PIIConfig. -/
structure PIIConfig where
  enabled : Bool
  blockSSN : Bool
  blockCC : Bool
  blockEmail : Bool
  blockPhone : Bool
  redactMode : String
deriving DecidableEq, Repr, Inhabited

/-- Translation of guardrails.ModelLimitConfig; Go maps become
association lists, float64 dollar amounts become exact rationals. -/
structure ModelLimitConfig where
  enabled : Bool
  costPerMToken : List (String × ℚ)
  costThresholdUSD : ℚ
  downgradeMap : List (String × String)
deriving DecidableEq, Repr, Inhabited

/-- Translation of guardrails.ApprovalConfig. -/
structure ApprovalConfig where
  enabled : Bool
  webhookURL : String
  timeoutSeconds : Int
  rules : List String
  fallbackAllow : Bool
deriving DecidableEq, Repr, Inhabited

/-- Translation of guardrails.PreventionConfig. -/
structure PreventionConfig where
  tools : ToolFilterConfig
  pii : PIIConfig
  modelLimits : ModelLimitConfig
  approval : ApprovalConfig
deriving DecidableEq, Repr, Inhabited

/-- Translation of guardrails.Config (the optimization section is
omitted: no claim touches the router or the analytics toggle). -/
structure GuardConfig where
  budgets : BudgetConfig
  loopDetection : LoopConfig
  toolProtection : ToolConfig
  retryProtection : RetryConfig
  alerts : AlertConfig
  prevention : PreventionConfig
deriving DecidableEq, Repr, Inhabited

/-! ## guardrails/toolfilter.go — tool filtering and session manager -/

/-- Translation of guardrails.filterTools. -/
def filterTools (cfg : ToolFilterConfig) (tools : List String) : List String :=
  if !cfg.enabled || tools.isEmpty then tools
  else if !cfg.allowlist.isEmpty then tools.filter (fun t => cfg.allowlist.contains t)
  else if !cfg.blocklist.isEmpty then tools.filter (fun t => !cfg.blocklist.contains t)
  else tools

/-- Translation of guardrails.SessionState; timestamps are abstract ticks
and the tool-call map is an association list. -/
structure SessionState where
  sessionID : String
  createdAt : Int
  lastActive : Int
  totalTokens : Int
  requestCount : Int
  promptHistory : List (String × Int)
  toolCalls : List (String × List Int)
  consecutiveErrors : Int
deriving DecidableEq, Repr, Inhabited

/-- The guardrails.Manager session map (mutex dropped: the model is
sequential, which the manager mutex guarantees in Go). -/
abbrev SessionMap := List (String × SessionState)

/-- Translation of Manager.GetOrCreate. -/
def getOrCreate (m : SessionMap) (sessionID : String) (now : Int) : SessionState × SessionMap :=
  match m.lookup sessionID with
  | some s => (s, m)
  | none =>
    let s : SessionState :=
      { sessionID := sessionID, createdAt := now, lastActive := 0, totalTokens := 0,
        requestCount := 0, promptHistory := [], toolCalls := [], consecutiveErrors := 0 }
    (s, m ++ [(sessionID, s)])

/-- Applies f to the session stored under the id; a no-op when the
session is absent (Go: the not-ok early return). -/
def updateSession (m : SessionMap) (sessionID : String) (f : SessionState → SessionState) :
    SessionMap :=
  m.map (fun p => if p.1 == sessionID then (p.1, f p.2) else p)

/-- Appends a call timestamp under the tool name (Go: append to the
map entry, creating it when missing). -/
def bumpTool : List (String × List Int) → String → Int → List (String × List Int)
  | [], tool, now => [(tool, [now])]
  | (t, ts) :: rest, tool, now =>
    if t == tool then (t, ts ++ [now]) :: rest else (t, ts) :: bumpTool rest tool now

/-- Translation of Manager.RecordRequest: bumps activity, appends the
prompt (trimming history to the last 20) and the tool timestamps. -/
def recordRequest (m : SessionMap) (sessionID promptText : String)
    (toolNames : List String) (now : Int) : SessionMap :=
  updateSession m sessionID (fun s =>
    let s1 := { s with lastActive := now, requestCount := s.requestCount + 1 }
    let s2 :=
      if promptText ≠ "" then
        let h := s1.promptHistory ++ [(promptText, now)]
        { s1 with promptHistory := if 20 < h.length then h.drop (h.length - 20) else h }
      else s1
    { s2 with toolCalls := toolNames.foldl (fun tc tool => bumpTool tc tool now) s2.toolCalls })

/-- Translation of Manager.RecordResponse. -/
def recordResponse (m : SessionMap) (sessionID : String) (tokens : Int) (isError : Bool) :
    SessionMap :=
  updateSession m sessionID (fun s =>
    { s with totalTokens := s.totalTokens + tokens,
             consecutiveErrors := if isError then s.consecutiveErrors + 1 else 0 })

/-- Translation of Manager.GetSessionTokens. -/
def getSessionTokens (m : SessionMap) (sessionID : String) : Int :=
  match m.lookup sessionID with
  | some s => s.totalTokens
  | none => 0

/-- Translation of Manager.Remove. -/
def removeSession (m : SessionMap) (sessionID : String) : SessionMap :=
  m.filter (fun p => p.1 != sessionID)

/-! ## guardrails/detection.go — detection rules -/

/-- Translation of guardrails.EvalRequest. -/
structure EvalRequest where
  promptText : String
  toolNames : List String
  model : String
deriving DecidableEq, Repr

/-- Translation of guardrails.Violation (the details map is dropped: no
claim inspects it). -/
structure Violation where
  rule : String
  message : String
  sessionID : String
deriving DecidableEq, Repr, Inhabited

/-- Translation of guardrails.checkTokenBudget. -/
def checkTokenBudget (cfg : GuardConfig) (sessionID : String) (totalTokens : Int) :
    Option Violation :=
  let mx := cfg.budgets.maxSessionTokens
  if mx ≤ 0 then none
  else if mx ≤ totalTokens then
    some { rule := "token_budget",
           message := "Session halted: token budget exceeded (" ++ toString totalTokens ++
             " / " ++ toString mx ++ " tokens).",
           sessionID := sessionID }
  else none

/-- Translation of guardrails.checkPromptLoop: counts history entries in
the window whose Jaccard similarity to the current prompt reaches the
threshold (the just-recorded current prompt is part of the history the
proxy hands in). -/
def checkPromptLoop (cfg : GuardConfig) (sessionID : String)
    (history : List (String × Int)) (currentPrompt : String) (now : Int) : Option Violation :=
  let threshold := cfg.loopDetection.similarPromptThreshold
  let maxSimilar := cfg.loopDetection.maxSimilarPrompts
  let windowSec := cfg.loopDetection.windowSeconds
  if threshold ≤ 0 ∨ maxSimilar ≤ 0 ∨ currentPrompt = "" then none
  else
    let cutoff := now - windowSec
    let matchCount := (history.filter (fun e =>
      !(decide (e.2 < cutoff)) && decide (threshold ≤ jaccardSimilarity currentPrompt e.1))).length
    if maxSimilar ≤ (matchCount : Int) then
      some { rule := "prompt_loop",
             message := "Session halted: agent appears stuck in a recursive loop.",
             sessionID := sessionID }
    else none

/-- Translation of guardrails.checkToolRetryStorm: the first tool of the
request with enough strictly-recent calls triggers. -/
def checkToolRetryStorm (cfg : GuardConfig) (sessionID : String)
    (toolCalls : List (String × List Int)) (currentTools : List String) (now : Int) :
    Option Violation :=
  let maxCalls := cfg.toolProtection.maxRepeatCalls
  let windowSec := cfg.toolProtection.repeatWindowSeconds
  if maxCalls ≤ 0 ∨ windowSec ≤ 0 then none
  else
    let cutoff := now - windowSec
    currentTools.findSome? (fun tool =>
      match toolCalls.lookup tool with
      | none => none
      | some timestamps =>
        let recentCount := (timestamps.filter (fun ts => decide (cutoff < ts))).length
        if maxCalls ≤ (recentCount : Int) then
          some { rule := "tool_retry_storm",
                 message := "Session halted: tool called too many times.",
                 sessionID := sessionID }
        else none)

/-- Translation of guardrails.checkErrorSpiral. -/
def checkErrorSpiral (cfg : GuardConfig) (sessionID : String) (consecutiveErrors : Int) :
    Option Violation :=
  let maxErrors := cfg.retryProtection.maxConsecutiveErrors
  if maxErrors ≤ 0 then none
  else if maxErrors ≤ consecutiveErrors then
    some { rule := "error_spiral",
           message := "Session halted: consecutive errors detected.",
           sessionID := sessionID }
  else none

/-- Translation of guardrails.Evaluate: the four detection rules in
fixed order over a snapshot of the session; the first violation wins. -/
def evaluate (cfg : Option GuardConfig) (m : SessionMap) (sessionID : String)
    (req : EvalRequest) (now : Int) : Option Violation :=
  match cfg with
  | none => none
  | some cfg =>
    match m.lookup sessionID with
    | none => none
    | some s =>
      match checkTokenBudget cfg sessionID s.totalTokens with
      | some v => some v
      | none =>
        match checkPromptLoop cfg sessionID s.promptHistory req.promptText now with
        | some v => some v
        | none =>
          match checkToolRetryStorm cfg sessionID s.toolCalls req.toolNames now with
          | some v => some v
          | none => checkErrorSpiral cfg sessionID s.consecutiveErrors

/-! ## guardrails prevention (unnamed prevention source) -/

/-- A minimal JSON request body: either a top-level object with opaque
field values, or bytes that are not a JSON object (on which Go
json.Unmarshal into a map fails). Nested message/tool rewriting inside
field values is beyond what the claims inspect and is abstracted by
field-level updates. -/
inductive JsonLite where
  | jobj (fields : List (String × String))
  | raw (s : String)
deriving DecidableEq, Repr

/-- Sets (or inserts) a top-level field of a JSON object. -/
def setField : List (String × String) → String → String → List (String × String)
  | [], k, v => [(k, v)]
  | (k0, v0) :: rest, k, v =>
    if k0 == k then (k0, v) :: rest else (k0, v0) :: setField rest k v

/-- Updates a top-level field only when present (Go: the ok-guarded
updates of "messages" and "tools"). -/
def updateExisting : List (String × String) → String → String → List (String × String)
  | [], _, _ => []
  | (k0, v0) :: rest, k, v =>
    if k0 == k then (k0, v) :: rest else (k0, v0) :: updateExisting rest k v

/-- Translation of guardrails.modifyRequestBody: fails exactly when the
body is not a JSON object; otherwise updates model, messages (when the
prompt was redacted) and tools (when a tool list is present). -/
def modifyRequestBody (body : JsonLite) (newPrompt : String) (newTools : Option (List String))
    (newModel : String) (originalPrompt : String) : Except String JsonLite :=
  match body with
  | .raw _ => .error "json: cannot unmarshal into map"
  | .jobj fields =>
    let f1 := if newModel ≠ "" then setField fields "model" newModel else fields
    let f2 :=
      if newPrompt ≠ originalPrompt then updateExisting f1 "messages" newPrompt else f1
    let f3 :=
      match newTools with
      | some ts => updateExisting f2 "tools" (String.intercalate "," ts)
      | none => f2
    .ok (.jobj f3)

/-- Translation of guardrails.PreventionResult. -/
structure PreventionResult where
  blocked : Bool := false
  blockReason : String := ""
  modifiedBody : Option JsonLite := none
  modelDowngraded : String := ""
  piiRedacted : Bool := false
  toolsFiltered : Bool := false
deriving DecidableEq, Repr, Inhabited

/-- Translation of guardrails.estimateSessionCost. -/
def estimateSessionCost (costMap : List (String × ℚ)) (model : String) (tokens : Int) : ℚ :=
  match costMap.lookup model with
  | none => 0
  | some costPerMToken => (tokens : ℚ) / 1000000 * costPerMToken

/-- Translation of guardrails.checkModelDowngrade. -/
def checkModelDowngrade (cfg : ModelLimitConfig) (model : String) (sessionTokens : Int) :
    String :=
  if !cfg.enabled || cfg.costThresholdUSD == 0 then model
  else
    let cost := estimateSessionCost cfg.costPerMToken model sessionTokens
    if cfg.costThresholdUSD ≤ cost then
      match cfg.downgradeMap.lookup model with
      | some downgrade => downgrade
      | none => model
    else model

/-- Translation of guardrails.EvaluatePrevention. The regex-based PII
scanner checkPII is the opaque parameter piiScan (its (blocked,
redactedText) contract is all this function uses); everything else is
the source's control flow: PII, then tool filtering, then model
downgrade, then the body rewrite whose failure falls through to the
original body. -/
def evaluatePrevention (piiScan : PIIConfig → String → Bool × String)
    (cfg : Option GuardConfig) (reqBody : JsonLite) (promptText : String)
    (toolNames : List String) (model : String) (sessionTokens : Int) : PreventionResult :=
  match cfg with
  | none => {}
  | some cfg =>
    let prev := cfg.prevention
    let piiOut := if prev.pii.enabled then piiScan prev.pii promptText else (false, promptText)
    if prev.pii.enabled && piiOut.1 then
      { blocked := true, blockReason := "PII detected in request (policy: block)" }
    else
      let piiRedacted : Bool := prev.pii.enabled && (piiOut.2 != promptText)
      let newPrompt := if prev.pii.enabled then piiOut.2 else promptText
      let filtered := filterTools prev.tools toolNames
      if prev.tools.enabled && !toolNames.isEmpty && filtered.isEmpty then
        { blocked := true, blockReason := "all requested tools are blocked by policy",
          piiRedacted := piiRedacted }
      else
        let toolsChanged : Bool :=
          prev.tools.enabled && !toolNames.isEmpty && (filtered.length != toolNames.length)
        let newTools := if toolsChanged then filtered else toolNames
        let downgraded :=
          if prev.modelLimits.enabled then
            checkModelDowngrade prev.modelLimits model sessionTokens
          else model
        let modelChanged : Bool := prev.modelLimits.enabled && (downgraded != model)
        let needsRewrite : Bool := piiRedacted || toolsChanged || modelChanged
        let base : PreventionResult :=
          { piiRedacted := piiRedacted, toolsFiltered := toolsChanged,
            modelDowngraded := if modelChanged then model else "" }
        if needsRewrite then
          match modifyRequestBody reqBody newPrompt
              (if toolNames.isEmpty then none else some newTools) downgraded promptText with
          | .error _ => base
          | .ok b => { base with modifiedBody := some b }
        else base

/-! ## guardrails/approval.go — human-in-the-loop approval -/

/-- Translation of guardrails.RequestApproval. The webhook exchange is
an oracle: none models a transport failure, timeout or undecodable
response (all of which fall back in Go); some b models a decoded
response with approved = b. Returns (approved, webhookConsulted). -/
def requestApproval (cfg : ApprovalConfig) (v : Violation) (webhook : Option Bool) :
    Bool × Bool :=
  if !cfg.enabled || cfg.webhookURL == "" then (true, false)
  else if !cfg.rules.isEmpty && !cfg.rules.contains v.rule then (false, false)
  else
    match webhook with
    | none => (cfg.fallbackAllow, true)
    | some approved => (approved, true)

/-! ## guardrails/analytics.go — performance tracker -/

/-- Translation of guardrails.LatencyStats. -/
structure LatencyStats where
  avgMS : Int
  p50MS : Int
  p95MS : Int
  p99MS : Int
deriving DecidableEq, Repr

/-- Translation of guardrails.ModelStats. Counters are Nat (the Go
int64 counters only ever increment from zero); durations are Int. -/
structure ModelStats where
  model : String
  requestCount : Nat
  successCount : Nat
  errorCount : Nat
  totalTokens : Int
  tokensPrompt : Int
  tokensCompletion : Int
  latencies : List Int
  errorsByType : List (String × Nat)
  lastUpdated : Int
deriving DecidableEq, Repr

/-- Insertion into a sorted list, ascending. -/
def insertSorted (x : Int) : List Int → List Int
  | [] => [x]
  | y :: ys => if x ≤ y then x :: y :: ys else y :: insertSorted x ys

/-- The sorted copy Go builds with sort.Slice before quantiles. -/
def sortLat : List Int → List Int
  | [] => []
  | x :: xs => insertSorted x (sortLat xs)

/-- Translation of guardrails.percentileIndex. -/
def percentileIndex (n pct : Nat) : Nat :=
  let idx := n * pct / 100
  if n ≤ idx then n - 1 else idx

/-- Translation of ModelStats.ComputeLatency: average and percentiles
over a sorted copy of the stored durations. Int.tdiv is Go's
truncating int64 division. -/
def computeLatency (ms : ModelStats) : LatencyStats :=
  if ms.latencies.length = 0 then ⟨0, 0, 0, 0⟩
  else
    let sorted := sortLat ms.latencies
    let n := sorted.length
    let sum := sorted.foldl (fun a b => a + b) 0
    { avgMS := Int.tdiv sum (n : Int),
      p50MS := sorted.getD (n / 2) 0,
      p95MS := sorted.getD (percentileIndex n 95) 0,
      p99MS := sorted.getD (percentileIndex n 99) 0 }

/-- Increments a counter in an association map (Go: ErrorsByType[k]++). -/
def bumpCount : List (String × Nat) → String → List (String × Nat)
  | [], k => [(k, 1)]
  | (k0, n) :: rest, k =>
    if k0 == k then (k0, n + 1) :: rest else (k0, n) :: bumpCount rest k

/-- The single-model update performed by PerformanceTracker.RecordCall
after the map lookup: bump counters, then either append the latency
sample (under the 10,000 cap) or overwrite the slot at the updated
request count modulo 10,000. -/
def recordCallStats (ms : ModelStats) (durationMS : Int)
    (promptTokens completionTokens totalTokens : Int) (status errorType : String)
    (now : Int) : ModelStats :=
  let rc := ms.requestCount + 1
  let lat :=
    if ms.latencies.length < 10000 then ms.latencies ++ [durationMS]
    else ms.latencies.set (rc % 10000) durationMS
  { ms with
    requestCount := rc,
    totalTokens := ms.totalTokens + totalTokens,
    tokensPrompt := ms.tokensPrompt + promptTokens,
    tokensCompletion := ms.tokensCompletion + completionTokens,
    lastUpdated := now,
    latencies := lat,
    successCount := if status = "success" then ms.successCount + 1 else ms.successCount,
    errorCount := if status = "success" then ms.errorCount else ms.errorCount + 1,
    errorsByType :=
      if status = "success" then ms.errorsByType
      else if errorType = "" then ms.errorsByType
      else bumpCount ms.errorsByType errorType }

/-- A fresh per-model aggregate (Go: the not-ok branch of RecordCall). -/
def newModelStats (model : String) : ModelStats :=
  { model := model, requestCount := 0, successCount := 0, errorCount := 0,
    totalTokens := 0, tokensPrompt := 0, tokensCompletion := 0,
    latencies := [], errorsByType := [], lastUpdated := 0 }

/-- Stores a model's aggregate in the tracker map. -/
def setStats : List (String × ModelStats) → String → ModelStats → List (String × ModelStats)
  | [], k, v => [(k, v)]
  | (k0, v0) :: rest, k, v =>
    if k0 == k then (k0, v) :: rest else (k0, v0) :: setStats rest k v

/-- Translation of PerformanceTracker.RecordCall over the tracker map. -/
def RecordCall (tracker : List (String × ModelStats)) (model : String) (durationMS : Int)
    (promptTokens completionTokens totalTokens : Int) (status errorType : String)
    (now : Int) : List (String × ModelStats) :=
  let ms := (tracker.lookup model).getD (newModelStats model)
  setStats tracker model
    (recordCallStats ms durationMS promptTokens completionTokens totalTokens status errorType now)

/-! ## proxy (unnamed proxy source) — request pipeline -/

/-- The upstream provider's reply: the status, whether the Content-Type
is text/event-stream, and whether reading the response body succeeds
(the io.ReadAll in handleBufferedResponse); relayed body content is not
modelled (no claim inspects it). -/
structure UpstreamResp where
  status : Nat
  sse : Bool
  bodyReadOk : Bool
deriving DecidableEq, Repr

/-- Translation of proxy.Config (vault, recorder and telemetry are
fire-and-forget and never influence the response; they are omitted). -/
structure ProxyCfg where
  providerURL : String
  gatewayKey : String
  guardrails : Option GuardConfig
  hasSessions : Bool

/-- The per-request inputs handleProxy reads: headers, whether the body
could be read, the body, and the fields the JSON parsers extract from
it (model, last user message, tool names, stream flag). -/
structure ProxyReq where
  xSessionID : String
  authorization : String
  xGatewayKey : String
  xApiKey : String
  bodyReadOk : Bool
  body : JsonLite
  promptText : String
  toolNames : List String
  model : String
  stream : Bool
deriving DecidableEq, Repr

/-- The observable outcome of one request: HTTP status, the x-run-id
header ("" when the header is never set), the error envelope type and
rule, whether the response relays an upstream status, whether
upstreamClient.Do returned a reply before the response was written
(headers, in particular x-run-id, are set right after it does), the
body sent upstream (none when nothing was forwarded), and whether the
session was removed. -/
structure ProxyResp where
  status : Nat
  xRunID : String
  errType : String
  errRule : String
  relayed : Bool
  upstreamDone : Bool
  forwardedBody : Option JsonLite
  sessionRemoved : Bool
deriving DecidableEq, Repr

/-- Translation of proxy.extractSessionID; sha stands for the truncated
hex SHA-256 of the Authorization header. -/
def extractSessionID (sha : String → String) (r : ProxyReq) : String :=
  if r.xSessionID ≠ "" then r.xSessionID
  else if r.authorization ≠ "" then "auth_" ++ sha r.authorization
  else "anonymous"

/-- Translation of proxy.authenticateGateway. -/
def authenticateGateway (gatewayKey : String) (r : ProxyReq) : Bool :=
  if gatewayKey = "" then true
  else
    let provided := if r.xGatewayKey ≠ "" then r.xGatewayKey else r.xApiKey
    provided == gatewayKey

/-- The tail of handleProxy after upstreamClient.Do: a transport failure
yields a 502 before any header is written; on a reply, x-run-id and the
passthrough headers are set first, then a streaming reply (stream flag
and text/event-stream) or a buffered reply whose body reads relays the
upstream status, while a buffered reply whose body read fails yields the
gateway's own 502 — written after x-run-id was already set, so it still
carries the run id. The session records the upstream status either way,
since handleProxy updates the session after the dispatch returns. -/
def forwardUpstream (cfg : ProxyCfg) (sid : String) (body1 : JsonLite) (stream : Bool)
    (m : SessionMap) (upstream : Option UpstreamResp) (runID : String) :
    ProxyResp × SessionMap :=
  match upstream with
  | none =>
    ({ status := 502, xRunID := "", errType := "upstream", errRule := "",
       relayed := false, upstreamDone := false, forwardedBody := some body1,
       sessionRemoved := false }, m)
  | some u =>
    let m2 :=
      if cfg.guardrails.isSome && cfg.hasSessions then
        recordResponse m sid 0 (400 ≤ u.status)
      else m
    if stream && u.sse then
      ({ status := u.status, xRunID := runID, errType := "", errRule := "",
         relayed := true, upstreamDone := true, forwardedBody := some body1,
         sessionRemoved := false }, m2)
    else if !u.bodyReadOk then
      ({ status := 502, xRunID := runID, errType := "upstream_read", errRule := "",
         relayed := false, upstreamDone := true, forwardedBody := some body1,
         sessionRemoved := false }, m2)
    else
      ({ status := u.status, xRunID := runID, errType := "", errRule := "",
         relayed := true, upstreamDone := true, forwardedBody := some body1,
         sessionRemoved := false }, m2)

/-- The prevention result handleProxy computes: the session's token
total feeds the cost estimate when sessions are configured. -/
def proxyPrevention (piiScan : PIIConfig → String → Bool × String) (sha : String → String)
    (cfg : ProxyCfg) (r : ProxyReq) (m : SessionMap) : PreventionResult :=
  match cfg.guardrails with
  | none => ({} : PreventionResult)
  | some g =>
    let sid := extractSessionID sha r
    let sessionTokens := if cfg.hasSessions then getSessionTokens m sid else 0
    evaluatePrevention piiScan (some g) r.body r.promptText r.toolNames r.model sessionTokens

/-- Translation of proxy.handleProxy: read body, prevention (403 on
block, body swap on rewrite), detection with approval override (429 and
session removal when not approved), then forward. A successful JSON
rewrite is opaque to the downstream extractors here, so the re-parse
after a rewrite keeps the already-extracted fields. -/
def handleProxy (piiScan : PIIConfig → String → Bool × String) (sha : String → String)
    (cfg : ProxyCfg) (r : ProxyReq) (m : SessionMap)
    (upstream : Option UpstreamResp) (webhook : Option Bool)
    (runID : String) (now : Int) : ProxyResp × SessionMap :=
  if !r.bodyReadOk then
    ({ status := 400, xRunID := "", errType := "bad_request", errRule := "",
       relayed := false, upstreamDone := false, forwardedBody := none,
       sessionRemoved := false }, m)
  else
    let sid := extractSessionID sha r
    let prevResult := proxyPrevention piiScan sha cfg r m
    if prevResult.blocked then
      ({ status := 403, xRunID := "", errType := "prevention_policy_blocked", errRule := "",
         relayed := false, upstreamDone := false, forwardedBody := none,
         sessionRemoved := false }, m)
    else
      let body1 := prevResult.modifiedBody.getD r.body
      match cfg.guardrails, cfg.hasSessions with
      | some g, true =>
        let m1 := (getOrCreate m sid now).2
        let m2 := recordRequest m1 sid r.promptText r.toolNames now
        match evaluate (some g) m2 sid ⟨r.promptText, r.toolNames, r.model⟩ now with
        | some v =>
          let ap := requestApproval g.prevention.approval v webhook
          if ap.1 then forwardUpstream cfg sid body1 r.stream m2 upstream runID
          else
            ({ status := 429, xRunID := "", errType := "agent_guardrail_triggered",
               errRule := v.rule, relayed := false, upstreamDone := false,
               forwardedBody := none, sessionRemoved := true }, removeSession m2 sid)
        | none => forwardUpstream cfg sid body1 r.stream m2 upstream runID
      | _, _ => forwardUpstream cfg sid body1 r.stream m upstream runID

/-- The full endpoint handler: gateway auth (401 without x-run-id when
the key is configured and the header is missing or wrong), then
handleProxy. -/
def handleGateway (piiScan : PIIConfig → String → Bool × String) (sha : String → String)
    (cfg : ProxyCfg) (r : ProxyReq) (m : SessionMap)
    (upstream : Option UpstreamResp) (webhook : Option Bool)
    (runID : String) (now : Int) : ProxyResp × SessionMap :=
  if !authenticateGateway cfg.gatewayKey r then
    ({ status := 401, xRunID := "", errType := "unauthorized", errRule := "",
       relayed := false, upstreamDone := false, forwardedBody := none,
       sessionRemoved := false }, m)
  else
    handleProxy piiScan sha cfg r m upstream webhook runID now

/-- Runs a sequence of requests through the gateway, threading the
session store; each item carries its own oracles, run id and time. -/
def runSeq (piiScan : PIIConfig → String → Bool × String) (sha : String → String)
    (cfg : ProxyCfg) :
    List (ProxyReq × Option UpstreamResp × Option Bool × String × Int) → SessionMap →
    List ProxyResp × SessionMap
  | [], m => ([], m)
  | (r, u, w, rid, t) :: rest, m =>
    let out := handleGateway piiScan sha cfg r m u w rid t
    let outs := runSeq piiScan sha cfg rest out.2
    (out.1 :: outs.1, outs.2)

/-! ## Auxiliary definitions for the statements and witnesses -/

/-- The invariant every chain built by Append calls satisfies: the
counter matches the length, sequence numbers are the 1-based positions,
links and signatures check out from the empty starting hash, and the
cached last hash is the hash of the final serialized entry. -/
def ChainInv (sha : String → String) (hmac : String → String → String)
    (ac : AuditChain) : Prop :=
  ac.seq = (ac.entries.length : Int) ∧
  (∀ i (h : i < ac.entries.length), (ac.entries.get ⟨i, h⟩).sequence = (i : Int) + 1) ∧
  chainOk sha hmac ac.secret "" ac.entries ∧
  ac.last = endHash sha "" ac.entries

/-- A concrete injective stand-in for hex SHA-256, used to instantiate
the opaque hash parameter in witnesses. -/
def shaC (s : String) : String := "H(" ++ s ++ ")"

/-- A concrete injective stand-in for hex HMAC-SHA256 (key, message),
used to instantiate the opaque HMAC parameter in witnesses. -/
def hmacC (k m : String) : String := "M(" ++ k ++ "|" ++ m ++ ")"

/-- A concrete evidence-package serializer distinguishing every field of
the package — export time, gateway id, chain length, validity, break
point, audit entries, compliance report, record count, time range and
attestation — used to instantiate the opaque marshal parameter. -/
def encPkgC (p : EvidencePackage) : String :=
  toString p.exportedAt ++ "|" ++ p.gatewayID ++ "|" ++ toString p.chainLength ++ "|" ++
    toString p.chainValid ++ "|" ++ toString p.chainBrokenAt ++ "|" ++
    String.intercalate ";" (p.auditEntries.map ChainEntry.json) ++ "|" ++
    (match p.complianceReport with
     | none => "-"
     | some c => "+" ++ c) ++ "|" ++
    toString p.recordCount ++ "|" ++ toString p.timeRange.1 ++ "," ++
    toString p.timeRange.2 ++ "|" ++ p.attestation

/-- The concrete evidence package of the attestation witness: a one-entry
chain under secret K, a compliance report, gateway id gw, exported at
time 7, over the injective stand-in hash, HMAC and serializer. -/
def pkgW : EvidencePackage :=
  GenerateEvidencePackage shaC hmacC encPkgC
    (appendAll shaC hmacC "K" [("run-1", "rec-1", 1)]) (some "report") "gw" "K" 7

/-- A PII scanner stand-in that finds nothing, for scenarios whose
configuration disables the PII rule. -/
def piiScanNone : PIIConfig → String → Bool × String := fun _ s => (false, s)

/-- The guardrails configuration of the loop-detection scenario:
similar_prompt_threshold 0.80, max_similar_prompts 3, window_seconds 60,
everything else off (in particular approval is not configured). -/
def loopOnlyCfg : GuardConfig :=
  { budgets := ⟨0, 0⟩,
    loopDetection := ⟨8 / 10, 3, 60⟩,
    toolProtection := ⟨0, 0⟩,
    retryProtection := ⟨0⟩,
    alerts := ⟨""⟩,
    prevention := ⟨⟨false, [], []⟩, ⟨false, false, false, false, false, ""⟩,
      ⟨false, [], 0, []⟩, ⟨false, "", 0, [], false⟩⟩ }

/-- The prompt of the loop-detection scenario. -/
def loopPrompt : String := "please help me fix the authentication error in my code"

/-- The request of the loop-detection scenario: session s1, readable
JSON body, the scenario prompt, no tools. -/
def loopReq : ProxyReq :=
  ⟨"s1", "", "", "", true, JsonLite.jobj [("model", "gpt-4")], loopPrompt, [], "gpt-4", false⟩

/-- The proxy configuration of the loop-detection scenario: guardrails
and sessions on, no gateway key. -/
def loopProxyCfg : ProxyCfg := ⟨"http://upstream", "", some loopOnlyCfg, true⟩

/-- The guardrails configuration of the rewrite-failure scenario: only
model limits are enabled (cost 0.03 $/M tokens for gpt-4, threshold $1,
downgrade to gpt-3.5-turbo); PII, tool filtering and approval are off. -/
def dgCfg : GuardConfig :=
  { budgets := ⟨0, 0⟩, loopDetection := ⟨0, 0, 0⟩, toolProtection := ⟨0, 0⟩,
    retryProtection := ⟨0⟩, alerts := ⟨""⟩,
    prevention := ⟨⟨false, [], []⟩, ⟨false, false, false, false, false, ""⟩,
      ⟨true, [("gpt-4", 3 / 100)], 1, [("gpt-4", "gpt-3.5-turbo")]⟩,
      ⟨false, "", 0, [], false⟩⟩ }

/-- The proxy configuration of the rewrite-failure scenario. -/
def dgProxy : ProxyCfg := ⟨"http://up", "", some dgCfg, false⟩

/-- The request of the rewrite-failure scenario: a readable body that is
not a JSON object. -/
def dgReq : ProxyReq :=
  ⟨"s1", "", "", "", true, JsonLite.raw "not json", "hello", [], "gpt-4", false⟩

/-! # Theorems -/

/-! ## Shared helper lemmas -/

theorem wordSet_empty_str : wordSet "" = ∅ := rfl

theorem sortLat_length (l : List Int) : (sortLat l).length = l.length := by
  induction l with
  | nil => rfl
  | cons x xs ih =>
    have hins : ∀ (y : Int) (t : List Int), (insertSorted y t).length = t.length + 1 := by
      intro y t
      induction t with
      | nil => rfl
      | cons z zs ih2 =>
        simp only [insertSorted]
        split
        · simp
        · simp [ih2]
    simp [sortLat, hins, ih]

theorem percentileIndex_eq_min (n pct : Nat) (hn : 1 ≤ n) (hp : pct < 100) :
    percentileIndex n pct = min (n - 1) (n * pct / 100) := by
  have hlt : n * pct / 100 < n := by
    have hmul : n * pct < n * 100 := by
      have h0 : (0 : Nat) < n := hn
      exact mul_lt_mul_of_pos_left hp h0
    exact Nat.div_lt_of_lt_mul (by omega)
  simp only [percentileIndex]
  rw [if_neg (Nat.not_le.mpr hlt)]
  omega

/-! ## C5 — failure classification -/

/-- C5 counterexample: with the spec's enumerated phrase lists, a 400
whose body contains only the underscore variant "context_length" must be
invalid_request, but ClassifyFailure returns context_length. -/
theorem classifyFailure_spec_counterexample :
    ClassifyFailure 400 "context_length exceeded" = "context_length" ∧
    classifyFailureClaim 400 "context_length exceeded" = "invalid_request" ∧
    ClassifyFailure 400 "context_length exceeded" ≠
      classifyFailureClaim 400 "context_length exceeded" := by
  refine ⟨by decide, by decide, by decide⟩

/-- C5 (amended): ClassifyFailure is the total function given by the
claim's clauses read in order, once the context-length phrase list also
contains "context_length" and the content-filter list also contains
"content policy". -/
theorem classifyFailure_matches_amended (statusCode : Int) (errorBody : String) :
    ClassifyFailure statusCode errorBody = classifyFailureAmended statusCode errorBody := by
  unfold ClassifyFailure classifyFailureAmended
  split_ifs <;> first | rfl | omega | tauto

/-! ## C9 — Jaccard similarity -/

/-- C9 counterexample: a whitespace-only string is non-empty, yet its
Jaccard similarity against "" is 1.0, not 0: its word set is empty, so
the both-empty branch fires. -/
theorem jaccard_whitespace_counterexample :
    (" " : String) ≠ "" ∧ jaccardSimilarity " " "" = 1 ∧ jaccardSimilarity " " "" ≠ 0 := by
  refine ⟨by decide, by decide, by decide⟩

/-- C9 (amended): Jaccard is 1 on equal strings, symmetric, 1 on two
empty strings, 0 against "" for any string with at least one word, and
1 against "" for non-empty whitespace-only strings (whose word set is
empty). -/
theorem jaccard_properties :
    (∀ a, jaccardSimilarity a a = 1) ∧
    (∀ a b, jaccardSimilarity a b = jaccardSimilarity b a) ∧
    jaccardSimilarity "" "" = 1 ∧
    (∀ a, wordSet a ≠ ∅ → jaccardSimilarity a "" = 0) ∧
    (∀ a, wordSet a = ∅ → jaccardSimilarity a "" = 1) := by
  refine ⟨?_, ?_, by decide, ?_, ?_⟩
  · intro a
    unfold jaccardSimilarity
    by_cases h : wordSet a = ∅
    · simp [h]
    · have hc : (wordSet a).card ≠ 0 := by
        simpa [Finset.card_eq_zero] using h
      simp only [h, and_self, if_false, Finset.inter_self, Finset.sdiff_self,
        Finset.card_empty, Nat.add_zero, if_neg hc]
      rw [div_self (by exact_mod_cast hc)]
  · intro a b
    have hden : (wordSet a).card + (wordSet b \ wordSet a).card =
        (wordSet b).card + (wordSet a \ wordSet b).card := by
      have h1 : (wordSet b \ wordSet a).card + (wordSet a).card =
          (wordSet b ∪ wordSet a).card := Finset.card_sdiff_add_card _ _
      have h2 : (wordSet a \ wordSet b).card + (wordSet b).card =
          (wordSet a ∪ wordSet b).card := Finset.card_sdiff_add_card _ _
      rw [Finset.union_comm] at h1
      omega
    simp only [jaccardSimilarity]
    by_cases hAB : wordSet a = ∅ ∧ wordSet b = ∅
    · simp [hAB.1, hAB.2]
    · have hu1 : (wordSet a).card + (wordSet b \ wordSet a).card ≠ 0 := by
        intro h0
        have hA0 : wordSet a = ∅ := Finset.card_eq_zero.mp (by omega)
        have hB0 : wordSet b \ wordSet a = ∅ := Finset.card_eq_zero.mp (by omega)
        rw [hA0, Finset.sdiff_empty] at hB0
        exact hAB ⟨hA0, hB0⟩
      have hu2 : (wordSet b).card + (wordSet a \ wordSet b).card ≠ 0 := by
        rw [← hden]
        exact hu1
      rw [if_neg hAB, if_neg hu1, Finset.inter_comm (wordSet a) (wordSet b), hden,
        if_neg (by tauto), if_neg hu2]
  · intro a h
    have hc : (wordSet a).card ≠ 0 := by simpa [Finset.card_eq_zero] using h
    unfold jaccardSimilarity
    simp [h, wordSet_empty_str, Finset.inter_empty, Finset.empty_sdiff, hc]
  · intro a h
    unfold jaccardSimilarity
    simp [h, wordSet_empty_str]

/-- C9 witness: "hello" has a non-empty word set and Jaccard similarity
0 against the empty string. -/
theorem jaccard_properties_witness :
    wordSet "hello" ≠ ∅ ∧ jaccardSimilarity "hello" "" = 0 :=
  ⟨by decide, jaccard_properties.2.2.2.1 "hello" (by decide)⟩

/-! ## C10 — VerifyAttestation leaves the package unchanged -/

/-- C10: VerifyAttestation saves the attestation, clears it for
recomputation and restores it, so the package it leaves behind equals
the input package field for field, for every package and secret and
whether or not verification succeeds. -/
theorem verifyAttestation_frame (hmac : String → String → String)
    (enc : EvidencePackage → String) (pkg : EvidencePackage) (secret : String) :
    (verifyAttestationSt hmac enc pkg secret).2 = pkg := by
  cases pkg
  rfl

/-! ## C2 — evidence package attestation -/

/-- C2: a package generated under secret K verifies under K; any package
that keeps the generated attestation but changes the signed content — a
mutation of any signed field (gateway_id, chain_length, record_count,
audit_entries, time_range, the compliance report, ...) — fails to
verify, given that HMAC-SHA256 does not reproduce the original tag on
the altered serialization; and verification under a different secret
fails, given that the two keys do not produce the same tag on this
serialization. The HMAC hypotheses are the cryptographic facts the Go
design relies on. -/
theorem evidence_attestation (sha : String → String) (hmac : String → String → String)
    (enc : EvidencePackage → String) (chain : AuditChain) (compliance : Option String)
    (gatewayID secret secret2 : String) (now : Int) :
    VerifyAttestation hmac enc
        (GenerateEvidencePackage sha hmac enc chain compliance gatewayID secret now)
        secret = true ∧
    (∀ Q : EvidencePackage,
      Q.attestation =
        (GenerateEvidencePackage sha hmac enc chain compliance gatewayID secret
          now).attestation →
      hmac secret (enc { Q with attestation := "" }) ≠
        (GenerateEvidencePackage sha hmac enc chain compliance gatewayID secret
          now).attestation →
      VerifyAttestation hmac enc Q secret = false) ∧
    (hmac secret2 (enc { GenerateEvidencePackage sha hmac enc chain compliance gatewayID secret now
            with attestation := "" }) ≠
        (GenerateEvidencePackage sha hmac enc chain compliance gatewayID secret now).attestation →
      VerifyAttestation hmac enc
        (GenerateEvidencePackage sha hmac enc chain compliance gatewayID secret now)
        secret2 = false) := by
  refine ⟨?_, ?_, ?_⟩
  · simp [VerifyAttestation, verifyAttestationSt, signPackage, GenerateEvidencePackage]
  · intro Q hatt h
    simp only [VerifyAttestation, verifyAttestationSt, signPackage]
    rw [beq_eq_false_iff_ne, hatt]
    exact fun hh => h hh.symm
  · intro h
    simp only [VerifyAttestation, verifyAttestationSt, signPackage]
    rw [beq_eq_false_iff_ne]
    exact fun hh => h hh.symm

set_option maxRecDepth 40000 in
/-- C2 witness: a concrete one-entry-chain package over the injective
stand-in hash, HMAC and all-field serializer verifies under its secret;
mutating each signed field in turn — gateway_id, chain_length,
record_count, audit_entries, time_range, the compliance report — fails
verification, as does the right package under the wrong key. -/
theorem evidence_attestation_witness :
    VerifyAttestation hmacC encPkgC pkgW "K" = true ∧
    (({ pkgW with gatewayID := "gw2" } : EvidencePackage).attestation = pkgW.attestation ∧
      hmacC "K" (encPkgC { pkgW with gatewayID := "gw2", attestation := "" }) ≠
        pkgW.attestation ∧
      VerifyAttestation hmacC encPkgC { pkgW with gatewayID := "gw2" } "K" = false) ∧
    (({ pkgW with chainLength := 99 } : EvidencePackage).attestation = pkgW.attestation ∧
      hmacC "K" (encPkgC { pkgW with chainLength := 99, attestation := "" }) ≠
        pkgW.attestation ∧
      VerifyAttestation hmacC encPkgC { pkgW with chainLength := 99 } "K" = false) ∧
    (({ pkgW with recordCount := 99 } : EvidencePackage).attestation = pkgW.attestation ∧
      hmacC "K" (encPkgC { pkgW with recordCount := 99, attestation := "" }) ≠
        pkgW.attestation ∧
      VerifyAttestation hmacC encPkgC { pkgW with recordCount := 99 } "K" = false) ∧
    (({ pkgW with auditEntries := [] } : EvidencePackage).attestation = pkgW.attestation ∧
      hmacC "K" (encPkgC { pkgW with auditEntries := [], attestation := "" }) ≠
        pkgW.attestation ∧
      VerifyAttestation hmacC encPkgC { pkgW with auditEntries := [] } "K" = false) ∧
    (({ pkgW with timeRange := (8, 9) } : EvidencePackage).attestation = pkgW.attestation ∧
      hmacC "K" (encPkgC { pkgW with timeRange := (8, 9), attestation := "" }) ≠
        pkgW.attestation ∧
      VerifyAttestation hmacC encPkgC { pkgW with timeRange := (8, 9) } "K" = false) ∧
    (({ pkgW with complianceReport := none } : EvidencePackage).attestation =
        pkgW.attestation ∧
      hmacC "K" (encPkgC { pkgW with complianceReport := none, attestation := "" }) ≠
        pkgW.attestation ∧
      VerifyAttestation hmacC encPkgC { pkgW with complianceReport := none } "K" = false) ∧
    (hmacC "K2" (encPkgC { pkgW with attestation := "" }) ≠ pkgW.attestation ∧
      VerifyAttestation hmacC encPkgC pkgW "K2" = false) := by
  refine ⟨?_, ⟨rfl, by decide, ?_⟩, ⟨rfl, by decide, ?_⟩, ⟨rfl, by decide, ?_⟩,
    ⟨rfl, by decide, ?_⟩, ⟨rfl, by decide, ?_⟩, ⟨rfl, by decide, ?_⟩, ⟨by decide, ?_⟩⟩
  · exact (evidence_attestation shaC hmacC encPkgC
      (appendAll shaC hmacC "K" [("run-1", "rec-1", 1)]) (some "report") "gw" "K" "K2" 7).1
  · exact (evidence_attestation shaC hmacC encPkgC
      (appendAll shaC hmacC "K" [("run-1", "rec-1", 1)]) (some "report") "gw" "K" "K2" 7).2.1
      { pkgW with gatewayID := "gw2" } rfl (by decide)
  · exact (evidence_attestation shaC hmacC encPkgC
      (appendAll shaC hmacC "K" [("run-1", "rec-1", 1)]) (some "report") "gw" "K" "K2" 7).2.1
      { pkgW with chainLength := 99 } rfl (by decide)
  · exact (evidence_attestation shaC hmacC encPkgC
      (appendAll shaC hmacC "K" [("run-1", "rec-1", 1)]) (some "report") "gw" "K" "K2" 7).2.1
      { pkgW with recordCount := 99 } rfl (by decide)
  · exact (evidence_attestation shaC hmacC encPkgC
      (appendAll shaC hmacC "K" [("run-1", "rec-1", 1)]) (some "report") "gw" "K" "K2" 7).2.1
      { pkgW with auditEntries := [] } rfl (by decide)
  · exact (evidence_attestation shaC hmacC encPkgC
      (appendAll shaC hmacC "K" [("run-1", "rec-1", 1)]) (some "report") "gw" "K" "K2" 7).2.1
      { pkgW with timeRange := (8, 9) } rfl (by decide)
  · exact (evidence_attestation shaC hmacC encPkgC
      (appendAll shaC hmacC "K" [("run-1", "rec-1", 1)]) (some "report") "gw" "K" "K2" 7).2.1
      { pkgW with complianceReport := none } rfl (by decide)
  · exact (evidence_attestation shaC hmacC encPkgC
      (appendAll shaC hmacC "K" [("run-1", "rec-1", 1)]) (some "report") "gw" "K" "K2" 7).2.2
      (by decide)

/-! ## C8 — analytics ring buffer and latency quantiles -/

theorem lookup_mem {α β : Type} [BEq α] [LawfulBEq α] :
    ∀ (l : List (α × β)) (k : α) (v : β), l.lookup k = some v → (k, v) ∈ l
  | [], _, _, h => by simp [List.lookup] at h
  | (k0, v0) :: rest, k, v, h => by
    simp only [List.lookup] at h
    cases hb : k == k0 with
    | true =>
      rw [hb] at h
      simp only [] at h
      have hk : k = k0 := eq_of_beq hb
      cases h
      exact hk ▸ List.mem_cons_self _ _
    | false =>
      rw [hb] at h
      exact List.mem_cons_of_mem _ (lookup_mem rest k v h)

theorem mem_setStats : ∀ (l : List (String × ModelStats)) (k : String) (v : ModelStats)
    (q : String × ModelStats), q ∈ setStats l k v → q = (k, v) ∨ q ∈ l
  | [], k, v, q, hq => by simpa [setStats] using hq
  | (k0, v0) :: rest, k, v, q, hq => by
    simp only [setStats] at hq
    split at hq
    · rcases List.mem_cons.mp hq with h | h
      · rename_i hbeq
        exact Or.inl (by rw [h, eq_of_beq hbeq])
      · exact Or.inr (List.mem_cons_of_mem _ h)
    · rcases List.mem_cons.mp hq with h | h
      · exact Or.inr (by simp [h])
      · rcases mem_setStats rest k v q h with h2 | h2
        · exact Or.inl h2
        · exact Or.inr (List.mem_cons_of_mem _ h2)

/-- C8: RecordCall appends the latency sample while the model holds
fewer than 10,000 and otherwise overwrites the slot at the updated
request count modulo 10,000, so every model stays at or below 10,000
samples; ComputeLatency returns, over the sorted copy of the samples of
size n, the truncating average sum/n, p50 = sorted[n/2], and
p95/p99 = sorted[min(n-1, n*pct/100)]. -/
theorem analytics_recordCall_computeLatency (ms : ModelStats) (d pt ct tt : Int)
    (st et : String) (now : Int) :
    (recordCallStats ms d pt ct tt st et now).requestCount = ms.requestCount + 1 ∧
    (ms.latencies.length ≤ 10000 →
      (recordCallStats ms d pt ct tt st et now).latencies.length ≤ 10000) ∧
    (ms.latencies.length < 10000 →
      (recordCallStats ms d pt ct tt st et now).latencies = ms.latencies ++ [d]) ∧
    (¬ ms.latencies.length < 10000 →
      (recordCallStats ms d pt ct tt st et now).latencies =
        ms.latencies.set ((ms.requestCount + 1) % 10000) d) ∧
    (ms.latencies ≠ [] →
      computeLatency ms =
        { avgMS := Int.tdiv ((sortLat ms.latencies).foldl (fun a b => a + b) 0)
            (ms.latencies.length : Int),
          p50MS := (sortLat ms.latencies).getD (ms.latencies.length / 2) 0,
          p95MS := (sortLat ms.latencies).getD
            (min (ms.latencies.length - 1) (ms.latencies.length * 95 / 100)) 0,
          p99MS := (sortLat ms.latencies).getD
            (min (ms.latencies.length - 1) (ms.latencies.length * 99 / 100)) 0 }) ∧
    (∀ tracker model q, (∀ p ∈ tracker, (p : String × ModelStats).2.latencies.length ≤ 10000) →
      q ∈ RecordCall tracker model d pt ct tt st et now → q.2.latencies.length ≤ 10000) := by
  have hcap : ∀ s : ModelStats, s.latencies.length ≤ 10000 →
      (recordCallStats s d pt ct tt st et now).latencies.length ≤ 10000 := by
    intro s hs
    simp only [recordCallStats]
    split
    · simp
      omega
    · simpa using hs
  refine ⟨rfl, hcap ms, ?_, ?_, ?_, ?_⟩
  · intro h
    simp [recordCallStats, h]
  · intro h
    simp [recordCallStats, h]
  · intro hne
    have hn : 0 < ms.latencies.length := List.length_pos.mpr hne
    have hlen := sortLat_length ms.latencies
    simp only [computeLatency]
    rw [if_neg (by omega)]
    rw [hlen]
    rw [percentileIndex_eq_min _ 95 (by omega) (by norm_num),
      percentileIndex_eq_min _ 99 (by omega) (by norm_num)]
  · intro tracker model q htr hq
    rcases mem_setStats _ _ _ _ hq with h | h
    · subst h
      refine hcap _ ?_
      rcases hlk : (tracker.lookup model) with _ | s0
      · simp [hlk, newModelStats]
      · have : (model, s0) ∈ tracker := lookup_mem tracker model s0 hlk
        simpa [hlk] using htr _ this
    · exact htr _ h

/-- C8 witness: a three-sample model under the cap, and a full model at
the cap whose new sample overwrites slot (request_count + 1) mod 10000. -/
theorem analytics_recordCall_witness :
    ((3 : Nat) ≤ 10000 ∧ (3 : Nat) < 10000 ∧
      ([(5 : Int), 1, 3] ≠ []) ∧
      (recordCallStats ⟨"m", 3, 3, 0, 0, 0, 0, [5, 1, 3], [], 0⟩ 9 0 0 0 "success" "" 0).latencies
        = [5, 1, 3, 9] ∧
      computeLatency ⟨"m", 3, 3, 0, 0, 0, 0, [5, 1, 3], [], 0⟩ =
        { avgMS := Int.tdiv ((sortLat [5, 1, 3]).foldl (fun a b => a + b) 0) 3,
          p50MS := (sortLat [5, 1, 3]).getD (3 / 2) 0,
          p95MS := (sortLat [5, 1, 3]).getD (min 2 (3 * 95 / 100)) 0,
          p99MS := (sortLat [5, 1, 3]).getD (min 2 (3 * 99 / 100)) 0 }) ∧
    (¬ (List.replicate 10000 (0 : Int)).length < 10000 ∧
      (recordCallStats ⟨"m", 12344, 12344, 0, 0, 0, 0, List.replicate 10000 0, [], 0⟩
          9 0 0 0 "success" "" 0).latencies =
        (List.replicate 10000 (0 : Int)).set ((12344 + 1) % 10000) 9) := by
  constructor
  · refine ⟨by decide, by decide, by decide, ?_, ?_⟩
    · exact (analytics_recordCall_computeLatency ⟨"m", 3, 3, 0, 0, 0, 0, [5, 1, 3], [], 0⟩
        9 0 0 0 "success" "" 0).2.2.1 (by decide)
    · exact (analytics_recordCall_computeLatency ⟨"m", 3, 3, 0, 0, 0, 0, [5, 1, 3], [], 0⟩
        9 0 0 0 "success" "" 0).2.2.2.2.1 (by decide)
  · refine ⟨by rw [List.length_replicate]; omega, ?_⟩
    exact (analytics_recordCall_computeLatency
        ⟨"m", 12344, 12344, 0, 0, 0, 0, List.replicate 10000 0, [], 0⟩
        9 0 0 0 "success" "" 0).2.2.2.1 (by rw [List.length_replicate]; omega)

/-! ## Proxy response case analysis (shared by C3, C6, C7) -/

/-- Every response of the gateway handler is one of: the gateway's own
401 / 400 / 403 / 429 / transport-failure 502, none of which sets
x-run-id or was written after an upstream reply; the gateway's own 502
when reading the upstream response body fails, written after the
upstream replied and therefore carrying x-run-id; or a relay of the
upstream status with x-run-id set. -/
theorem handleGateway_cases (piiScan : PIIConfig → String → Bool × String)
    (sha : String → String) (cfg : ProxyCfg) (r : ProxyReq) (m : SessionMap)
    (upstream : Option UpstreamResp) (webhook : Option Bool) (runID : String) (now : Int) :
    ((handleGateway piiScan sha cfg r m upstream webhook runID now).1.status = 401 ∧
      (handleGateway piiScan sha cfg r m upstream webhook runID now).1.errType = "unauthorized" ∧
      (handleGateway piiScan sha cfg r m upstream webhook runID now).1.xRunID = "" ∧
      (handleGateway piiScan sha cfg r m upstream webhook runID now).1.relayed = false ∧
      (handleGateway piiScan sha cfg r m upstream webhook runID now).1.upstreamDone = false ∧
      (handleGateway piiScan sha cfg r m upstream webhook runID now).1.forwardedBody = none ∧
      (handleGateway piiScan sha cfg r m upstream webhook runID now).1.sessionRemoved = false) ∨
    ((handleGateway piiScan sha cfg r m upstream webhook runID now).1.status = 400 ∧
      (handleGateway piiScan sha cfg r m upstream webhook runID now).1.errType = "bad_request" ∧
      (handleGateway piiScan sha cfg r m upstream webhook runID now).1.xRunID = "" ∧
      (handleGateway piiScan sha cfg r m upstream webhook runID now).1.relayed = false ∧
      (handleGateway piiScan sha cfg r m upstream webhook runID now).1.upstreamDone = false ∧
      (handleGateway piiScan sha cfg r m upstream webhook runID now).1.forwardedBody = none ∧
      (handleGateway piiScan sha cfg r m upstream webhook runID now).1.sessionRemoved = false) ∨
    ((handleGateway piiScan sha cfg r m upstream webhook runID now).1.status = 403 ∧
      (handleGateway piiScan sha cfg r m upstream webhook runID now).1.errType =
        "prevention_policy_blocked" ∧
      (handleGateway piiScan sha cfg r m upstream webhook runID now).1.xRunID = "" ∧
      (handleGateway piiScan sha cfg r m upstream webhook runID now).1.relayed = false ∧
      (handleGateway piiScan sha cfg r m upstream webhook runID now).1.upstreamDone = false ∧
      (handleGateway piiScan sha cfg r m upstream webhook runID now).1.forwardedBody = none ∧
      (handleGateway piiScan sha cfg r m upstream webhook runID now).1.sessionRemoved = false) ∨
    (∃ g v, cfg.guardrails = some g ∧
      (requestApproval g.prevention.approval v webhook).1 = false ∧
      (handleGateway piiScan sha cfg r m upstream webhook runID now).1.status = 429 ∧
      (handleGateway piiScan sha cfg r m upstream webhook runID now).1.errType =
        "agent_guardrail_triggered" ∧
      (handleGateway piiScan sha cfg r m upstream webhook runID now).1.errRule = v.rule ∧
      (handleGateway piiScan sha cfg r m upstream webhook runID now).1.xRunID = "" ∧
      (handleGateway piiScan sha cfg r m upstream webhook runID now).1.relayed = false ∧
      (handleGateway piiScan sha cfg r m upstream webhook runID now).1.upstreamDone = false ∧
      (handleGateway piiScan sha cfg r m upstream webhook runID now).1.forwardedBody = none ∧
      (handleGateway piiScan sha cfg r m upstream webhook runID now).1.sessionRemoved = true) ∨
    (upstream = none ∧
      (handleGateway piiScan sha cfg r m upstream webhook runID now).1.status = 502 ∧
      (handleGateway piiScan sha cfg r m upstream webhook runID now).1.errType = "upstream" ∧
      (handleGateway piiScan sha cfg r m upstream webhook runID now).1.xRunID = "" ∧
      (handleGateway piiScan sha cfg r m upstream webhook runID now).1.relayed = false ∧
      (handleGateway piiScan sha cfg r m upstream webhook runID now).1.upstreamDone = false ∧
      (handleGateway piiScan sha cfg r m upstream webhook runID now).1.forwardedBody =
        some ((proxyPrevention piiScan sha cfg r m).modifiedBody.getD r.body) ∧
      (handleGateway piiScan sha cfg r m upstream webhook runID now).1.sessionRemoved = false) ∨
    (∃ u, upstream = some u ∧
      (handleGateway piiScan sha cfg r m upstream webhook runID now).1.status = 502 ∧
      (handleGateway piiScan sha cfg r m upstream webhook runID now).1.errType =
        "upstream_read" ∧
      (handleGateway piiScan sha cfg r m upstream webhook runID now).1.xRunID = runID ∧
      (handleGateway piiScan sha cfg r m upstream webhook runID now).1.relayed = false ∧
      (handleGateway piiScan sha cfg r m upstream webhook runID now).1.upstreamDone = true ∧
      (handleGateway piiScan sha cfg r m upstream webhook runID now).1.forwardedBody =
        some ((proxyPrevention piiScan sha cfg r m).modifiedBody.getD r.body) ∧
      (handleGateway piiScan sha cfg r m upstream webhook runID now).1.sessionRemoved = false) ∨
    (∃ u, upstream = some u ∧
      (handleGateway piiScan sha cfg r m upstream webhook runID now).1.status = u.status ∧
      (handleGateway piiScan sha cfg r m upstream webhook runID now).1.errType = "" ∧
      (handleGateway piiScan sha cfg r m upstream webhook runID now).1.xRunID = runID ∧
      (handleGateway piiScan sha cfg r m upstream webhook runID now).1.relayed = true ∧
      (handleGateway piiScan sha cfg r m upstream webhook runID now).1.upstreamDone = true ∧
      (handleGateway piiScan sha cfg r m upstream webhook runID now).1.forwardedBody =
        some ((proxyPrevention piiScan sha cfg r m).modifiedBody.getD r.body) ∧
      (handleGateway piiScan sha cfg r m upstream webhook runID now).1.sessionRemoved = false) := by
  have hfwd : ∀ (sid : String) (body1 : JsonLite) (m1 : SessionMap),
      (upstream = none ∧
        (forwardUpstream cfg sid body1 r.stream m1 upstream runID).1.status = 502 ∧
        (forwardUpstream cfg sid body1 r.stream m1 upstream runID).1.errType = "upstream" ∧
        (forwardUpstream cfg sid body1 r.stream m1 upstream runID).1.xRunID = "" ∧
        (forwardUpstream cfg sid body1 r.stream m1 upstream runID).1.relayed = false ∧
        (forwardUpstream cfg sid body1 r.stream m1 upstream runID).1.upstreamDone = false ∧
        (forwardUpstream cfg sid body1 r.stream m1 upstream runID).1.forwardedBody =
          some body1 ∧
        (forwardUpstream cfg sid body1 r.stream m1 upstream runID).1.sessionRemoved = false) ∨
      (∃ u, upstream = some u ∧
        (forwardUpstream cfg sid body1 r.stream m1 upstream runID).1.status = 502 ∧
        (forwardUpstream cfg sid body1 r.stream m1 upstream runID).1.errType =
          "upstream_read" ∧
        (forwardUpstream cfg sid body1 r.stream m1 upstream runID).1.xRunID = runID ∧
        (forwardUpstream cfg sid body1 r.stream m1 upstream runID).1.relayed = false ∧
        (forwardUpstream cfg sid body1 r.stream m1 upstream runID).1.upstreamDone = true ∧
        (forwardUpstream cfg sid body1 r.stream m1 upstream runID).1.forwardedBody =
          some body1 ∧
        (forwardUpstream cfg sid body1 r.stream m1 upstream runID).1.sessionRemoved = false) ∨
      (∃ u, upstream = some u ∧
        (forwardUpstream cfg sid body1 r.stream m1 upstream runID).1.status = u.status ∧
        (forwardUpstream cfg sid body1 r.stream m1 upstream runID).1.errType = "" ∧
        (forwardUpstream cfg sid body1 r.stream m1 upstream runID).1.xRunID = runID ∧
        (forwardUpstream cfg sid body1 r.stream m1 upstream runID).1.relayed = true ∧
        (forwardUpstream cfg sid body1 r.stream m1 upstream runID).1.upstreamDone = true ∧
        (forwardUpstream cfg sid body1 r.stream m1 upstream runID).1.forwardedBody =
          some body1 ∧
        (forwardUpstream cfg sid body1 r.stream m1 upstream runID).1.sessionRemoved
          = false) := by
    intro sid body1 m1
    cases upstream with
    | none => exact Or.inl ⟨rfl, rfl, rfl, rfl, rfl, rfl, rfl, rfl⟩
    | some u =>
      by_cases hsse : (r.stream && u.sse) = true
      · have h1 : (forwardUpstream cfg sid body1 r.stream m1 (some u) runID).1 =
            ⟨u.status, runID, "", "", true, true, some body1, false⟩ := by
          simp only [forwardUpstream]
          rw [if_pos hsse]
        exact Or.inr (Or.inr ⟨u, rfl, by rw [h1], by rw [h1], by rw [h1], by rw [h1],
          by rw [h1], by rw [h1], by rw [h1]⟩)
      · by_cases hbr : u.bodyReadOk = true
        · have h1 : (forwardUpstream cfg sid body1 r.stream m1 (some u) runID).1 =
              ⟨u.status, runID, "", "", true, true, some body1, false⟩ := by
            simp only [forwardUpstream]
            rw [if_neg hsse, if_neg (by simp [hbr])]
          exact Or.inr (Or.inr ⟨u, rfl, by rw [h1], by rw [h1], by rw [h1], by rw [h1],
            by rw [h1], by rw [h1], by rw [h1]⟩)
        · have hbr2 : u.bodyReadOk = false := by
            cases hb : u.bodyReadOk
            · rfl
            · exact absurd hb hbr
          have h1 : (forwardUpstream cfg sid body1 r.stream m1 (some u) runID).1 =
              ⟨502, runID, "upstream_read", "", false, true, some body1, false⟩ := by
            simp only [forwardUpstream]
            rw [if_neg hsse, if_pos (by rw [hbr2]; rfl)]
          exact Or.inr (Or.inl ⟨u, rfl, by rw [h1], by rw [h1], by rw [h1], by rw [h1],
            by rw [h1], by rw [h1], by rw [h1]⟩)
  unfold handleGateway
  by_cases hauth : authenticateGateway cfg.gatewayKey r
  · rw [if_neg (by simp [hauth])]
    unfold handleProxy
    by_cases hrd : r.bodyReadOk
    · rw [if_neg (by simp [hrd])]
      by_cases hblk : (proxyPrevention piiScan sha cfg r m).blocked
      · rw [if_pos hblk]
        exact Or.inr (Or.inr (Or.inl ⟨rfl, rfl, rfl, rfl, rfl, rfl, rfl⟩))
      · rw [if_neg hblk]
        rcases hg : cfg.guardrails with _ | g
        · simp only [hg]
          rcases hfwd (extractSessionID sha r)
              ((proxyPrevention piiScan sha cfg r m).modifiedBody.getD r.body) m
            with h | h | h
          · exact Or.inr (Or.inr (Or.inr (Or.inr (Or.inl h))))
          · exact Or.inr (Or.inr (Or.inr (Or.inr (Or.inr (Or.inl h)))))
          · exact Or.inr (Or.inr (Or.inr (Or.inr (Or.inr (Or.inr h)))))
        · rcases hs : cfg.hasSessions with _ | _
          · simp only [hg, hs]
            rcases hfwd (extractSessionID sha r)
                ((proxyPrevention piiScan sha cfg r m).modifiedBody.getD r.body) m
              with h | h | h
            · exact Or.inr (Or.inr (Or.inr (Or.inr (Or.inl h))))
            · exact Or.inr (Or.inr (Or.inr (Or.inr (Or.inr (Or.inl h)))))
            · exact Or.inr (Or.inr (Or.inr (Or.inr (Or.inr (Or.inr h)))))
          · simp only [hg, hs]
            rcases hev : evaluate (some g)
                (recordRequest ((getOrCreate m (extractSessionID sha r) now).2)
                  (extractSessionID sha r) r.promptText r.toolNames now)
                (extractSessionID sha r) ⟨r.promptText, r.toolNames, r.model⟩ now
              with _ | v
            · simp only [hev]
              rcases hfwd (extractSessionID sha r)
                  ((proxyPrevention piiScan sha cfg r m).modifiedBody.getD r.body) _
                with h | h | h
              · exact Or.inr (Or.inr (Or.inr (Or.inr (Or.inl h))))
              · exact Or.inr (Or.inr (Or.inr (Or.inr (Or.inr (Or.inl h)))))
              · exact Or.inr (Or.inr (Or.inr (Or.inr (Or.inr (Or.inr h)))))
            · simp only [hev]
              by_cases hap : (requestApproval g.prevention.approval v webhook).1
              · rw [if_pos hap]
                rcases hfwd (extractSessionID sha r)
                    ((proxyPrevention piiScan sha cfg r m).modifiedBody.getD r.body) _
                  with h | h | h
                · exact Or.inr (Or.inr (Or.inr (Or.inr (Or.inl h))))
                · exact Or.inr (Or.inr (Or.inr (Or.inr (Or.inr (Or.inl h)))))
                · exact Or.inr (Or.inr (Or.inr (Or.inr (Or.inr (Or.inr h)))))
              · rw [if_neg hap]
                refine Or.inr (Or.inr (Or.inr (Or.inl ⟨g, v, rfl, ?_, rfl, rfl, rfl, rfl, rfl,
                  rfl, rfl, rfl⟩)))
                simpa using hap
    · rw [if_pos (by simpa using hrd)]
      exact Or.inr (Or.inl ⟨rfl, rfl, rfl, rfl, rfl, rfl, rfl⟩)
  · rw [if_pos (by simpa using hauth)]
    exact Or.inl ⟨rfl, rfl, rfl, rfl, rfl, rfl, rfl⟩

/-! ## C3 — x-run-id header -/

/-- C3 counterexample: with a gateway key configured and no key header,
the gateway's own 401 response carries an empty x-run-id header, so not
every 4xx response from the gateway has a non-empty x-run-id. -/
theorem xRunID_gateway401_counterexample :
    (handleGateway piiScanNone shaC ⟨"http://up", "secret", none, false⟩
        ⟨"", "", "", "", true, JsonLite.raw "b", "", [], "", false⟩ []
        (some ⟨200, false, true⟩) none "rid" 0).1.status = 401 ∧
    (handleGateway piiScanNone shaC ⟨"http://up", "secret", none, false⟩
        ⟨"", "", "", "", true, JsonLite.raw "b", "", [], "", false⟩ []
        (some ⟨200, false, true⟩) none "rid" 0).1.xRunID = "" := by
  exact ⟨rfl, rfl⟩

/-- C3 (amended): the x-run-id header is non-empty exactly on responses
written after the upstream replied, where it equals the generated run
id: that covers every relayed upstream status, and also the gateway's
own 502 when reading the upstream response body fails, since the header
is set as soon as upstreamClient.Do succeeds, before the body is read.
The gateway-generated 401, 400, 403, 429 and transport-failure 502
responses, all written before any upstream reply, never set it. -/
theorem xRunID_upstream_only (piiScan : PIIConfig → String → Bool × String)
    (sha : String → String) (cfg : ProxyCfg) (r : ProxyReq) (m : SessionMap)
    (upstream : Option UpstreamResp) (webhook : Option Bool) (runID : String) (now : Int)
    (hrun : runID ≠ "") :
    ((handleGateway piiScan sha cfg r m upstream webhook runID now).1.xRunID ≠ "" ↔
      (handleGateway piiScan sha cfg r m upstream webhook runID now).1.upstreamDone = true) ∧
    ((handleGateway piiScan sha cfg r m upstream webhook runID now).1.upstreamDone = true →
      (handleGateway piiScan sha cfg r m upstream webhook runID now).1.xRunID = runID) ∧
    ((handleGateway piiScan sha cfg r m upstream webhook runID now).1.relayed = true →
      (handleGateway piiScan sha cfg r m upstream webhook runID now).1.upstreamDone = true) ∧
    ((handleGateway piiScan sha cfg r m upstream webhook runID now).1.errType =
        "upstream_read" →
      (handleGateway piiScan sha cfg r m upstream webhook runID now).1.status = 502 ∧
      (handleGateway piiScan sha cfg r m upstream webhook runID now).1.relayed = false ∧
      (handleGateway piiScan sha cfg r m upstream webhook runID now).1.upstreamDone = true) := by
  rcases handleGateway_cases piiScan sha cfg r m upstream webhook runID now with
    h | h | h | h | h | h | h
  · obtain ⟨hst, het, hx, hrel, hdone, hfw, hrm⟩ := h
    exact ⟨by simp [hx, hdone], fun hd => absurd hd (by simp [hdone]),
      fun hr => absurd hr (by simp [hrel]), fun he => absurd he (by simp [het])⟩
  · obtain ⟨hst, het, hx, hrel, hdone, hfw, hrm⟩ := h
    exact ⟨by simp [hx, hdone], fun hd => absurd hd (by simp [hdone]),
      fun hr => absurd hr (by simp [hrel]), fun he => absurd he (by simp [het])⟩
  · obtain ⟨hst, het, hx, hrel, hdone, hfw, hrm⟩ := h
    exact ⟨by simp [hx, hdone], fun hd => absurd hd (by simp [hdone]),
      fun hr => absurd hr (by simp [hrel]), fun he => absurd he (by simp [het])⟩
  · obtain ⟨g, v, hg, hap, hst, het, her, hx, hrel, hdone, hfw, hrm⟩ := h
    exact ⟨by simp [hx, hdone], fun hd => absurd hd (by simp [hdone]),
      fun hr => absurd hr (by simp [hrel]), fun he => absurd he (by simp [het])⟩
  · obtain ⟨hup, hst, het, hx, hrel, hdone, hfw, hrm⟩ := h
    exact ⟨by simp [hx, hdone], fun hd => absurd hd (by simp [hdone]),
      fun hr => absurd hr (by simp [hrel]), fun he => absurd he (by simp [het])⟩
  · obtain ⟨u, hup, hst, het, hx, hrel, hdone, hfw, hrm⟩ := h
    exact ⟨by simp [hx, hdone, hrun], fun _ => hx, fun hr => absurd hr (by simp [hrel]),
      fun _ => ⟨hst, hrel, hdone⟩⟩
  · obtain ⟨u, hup, hst, het, hx, hrel, hdone, hfw, hrm⟩ := h
    exact ⟨by simp [hx, hdone, hrun], fun _ => hx, fun _ => hdone,
      fun he => absurd he (by simp [het])⟩

/-- C3 witness: through the concrete pipeline, a relayed 200 carries the
(non-empty) run id, and when the upstream replies but its body cannot be
read, the resulting non-relayed 502 still carries the run id. -/
theorem xRunID_upstream_only_witness :
    ("rid" : String) ≠ "" ∧
    ((handleGateway piiScanNone shaC ⟨"http://up", "", none, false⟩
        ⟨"", "", "", "", true, JsonLite.raw "b", "", [], "", false⟩ []
        (some ⟨200, false, true⟩) none "rid" 0).1.xRunID ≠ "" ↔
      (handleGateway piiScanNone shaC ⟨"http://up", "", none, false⟩
        ⟨"", "", "", "", true, JsonLite.raw "b", "", [], "", false⟩ []
        (some ⟨200, false, true⟩) none "rid" 0).1.upstreamDone = true) ∧
    (handleGateway piiScanNone shaC ⟨"http://up", "", none, false⟩
        ⟨"", "", "", "", true, JsonLite.raw "b", "", [], "", false⟩ []
        (some ⟨200, false, false⟩) none "rid" 0).1.status = 502 ∧
    (handleGateway piiScanNone shaC ⟨"http://up", "", none, false⟩
        ⟨"", "", "", "", true, JsonLite.raw "b", "", [], "", false⟩ []
        (some ⟨200, false, false⟩) none "rid" 0).1.relayed = false ∧
    (handleGateway piiScanNone shaC ⟨"http://up", "", none, false⟩
        ⟨"", "", "", "", true, JsonLite.raw "b", "", [], "", false⟩ []
        (some ⟨200, false, false⟩) none "rid" 0).1.xRunID = "rid" := by
  refine ⟨by decide, ?_, by decide, by decide, ?_⟩
  · exact (xRunID_upstream_only piiScanNone shaC ⟨"http://up", "", none, false⟩
      ⟨"", "", "", "", true, JsonLite.raw "b", "", [], "", false⟩ []
      (some ⟨200, false, true⟩) none "rid" 0 (by decide)).1
  · exact (xRunID_upstream_only piiScanNone shaC ⟨"http://up", "", none, false⟩
      ⟨"", "", "", "", true, JsonLite.raw "b", "", [], "", false⟩ []
      (some ⟨200, false, false⟩) none "rid" 0 (by decide)).2.1 (by decide)

/-! ## C6 — failed body rewrite is harmless -/

theorem evaluatePrevention_raw_modifiedBody (piiScan : PIIConfig → String → Bool × String)
    (cfg : Option GuardConfig) (s promptText : String) (toolNames : List String)
    (model : String) (tok : Int) :
    (evaluatePrevention piiScan cfg (JsonLite.raw s) promptText toolNames model
      tok).modifiedBody = none := by
  unfold evaluatePrevention
  cases cfg with
  | none => rfl
  | some g =>
    dsimp only
    split_ifs <;> simp [modifyRequestBody]

theorem proxyPrevention_raw (piiScan : PIIConfig → String → Bool × String)
    (sha : String → String) (pcfg : ProxyCfg) (r : ProxyReq) (m : SessionMap) (s : String)
    (hr : r.body = JsonLite.raw s) :
    (proxyPrevention piiScan sha pcfg r m).modifiedBody = none := by
  unfold proxyPrevention
  cases hg : pcfg.guardrails with
  | none => rfl
  | some g =>
    dsimp only
    rw [hr]
    exact evaluatePrevention_raw_modifiedBody piiScan (some g) s r.promptText r.toolNames
      r.model _

/-- C6: when the request body is not a JSON object the rewrite fails, so
prevention reports no modified body; provided neither the PII rule nor
the tool filter blocked the request first — exactly the situation in
which a rewrite is attempted at all — the result is not blocked; the
proxy then forwards the original body unchanged whenever it forwards
anything, and every 5xx the caller can see is either the upstream's own
relayed status or a 502 of the upstream exchange itself (transport
failure before any reply, or a failure to read the reply's body) —
prevention never produces a 5xx. -/
theorem prevention_rewrite_failure (piiScan : PIIConfig → String → Bool × String)
    (sha : String → String) (cfg : Option GuardConfig) (g : GuardConfig)
    (s promptText : String) (toolNames : List String) (model : String) (tok : Int)
    (pcfg : ProxyCfg) (r : ProxyReq) (m : SessionMap) (upstream : Option UpstreamResp)
    (webhook : Option Bool) (runID : String) (now : Int) :
    (evaluatePrevention piiScan cfg (JsonLite.raw s) promptText toolNames model
        tok).modifiedBody = none ∧
    ((g.prevention.pii.enabled = true →
        (piiScan g.prevention.pii promptText).1 = false) →
      ¬(g.prevention.tools.enabled = true ∧ toolNames ≠ [] ∧
        filterTools g.prevention.tools toolNames = []) →
      (evaluatePrevention piiScan (some g) (JsonLite.raw s) promptText toolNames model
        tok).blocked = false) ∧
    (r.body = JsonLite.raw s →
      ∀ b, (handleGateway piiScan sha pcfg r m upstream webhook runID now).1.forwardedBody =
          some b → b = JsonLite.raw s) ∧
    (500 ≤ (handleGateway piiScan sha pcfg r m upstream webhook runID now).1.status →
      (handleGateway piiScan sha pcfg r m upstream webhook runID now).1.relayed = true ∨
      ((handleGateway piiScan sha pcfg r m upstream webhook runID now).1.status = 502 ∧
        (upstream = none ∨
          (handleGateway piiScan sha pcfg r m upstream webhook runID
            now).1.upstreamDone = true))) := by
  refine ⟨evaluatePrevention_raw_modifiedBody piiScan cfg s promptText toolNames model tok,
    ?_, ?_, ?_⟩
  · intro hpii htools
    have hc1 : ¬((g.prevention.pii.enabled &&
        (if g.prevention.pii.enabled then piiScan g.prevention.pii promptText
          else (false, promptText)).1) = true) := by
      by_cases he : g.prevention.pii.enabled = true
      · rw [if_pos he, he]
        simp [hpii he]
      · have he2 : g.prevention.pii.enabled = false := by
          cases hb : g.prevention.pii.enabled
          · rfl
          · exact absurd hb he
        simp [he2]
    have hc2 : ¬((g.prevention.tools.enabled && !toolNames.isEmpty &&
        (filterTools g.prevention.tools toolNames).isEmpty) = true) := by
      intro hcond
      rw [Bool.and_eq_true, Bool.and_eq_true] at hcond
      refine htools ⟨hcond.1.1, ?_, List.isEmpty_iff.mp hcond.2⟩
      intro hnil
      rw [hnil] at hcond
      exact absurd hcond.1.2 (by decide)
    simp only [evaluatePrevention]
    rw [if_neg hc1, if_neg hc2]
    split_ifs <;> simp [modifyRequestBody]
  · intro hr b hfw
    rcases handleGateway_cases piiScan sha pcfg r m upstream webhook runID now with
      h | h | h | h | h | h | h
    · rw [h.2.2.2.2.2.1] at hfw
      cases hfw
    · rw [h.2.2.2.2.2.1] at hfw
      cases hfw
    · rw [h.2.2.2.2.2.1] at hfw
      cases hfw
    · obtain ⟨g2, v, hg2, hap, hst, het, her, hx, hrel, hdone, hfb, hrm⟩ := h
      rw [hfb] at hfw
      cases hfw
    · obtain ⟨hup, hst, het, hx, hrel, hdone, hfb, hrm⟩ := h
      rw [hfb] at hfw
      rw [proxyPrevention_raw piiScan sha pcfg r m s hr] at hfw
      simp only [Option.getD] at hfw
      rw [hr] at hfw
      exact (Option.some.inj hfw).symm
    · obtain ⟨u, hup, hst, het, hx, hrel, hdone, hfb, hrm⟩ := h
      rw [hfb] at hfw
      rw [proxyPrevention_raw piiScan sha pcfg r m s hr] at hfw
      simp only [Option.getD] at hfw
      rw [hr] at hfw
      exact (Option.some.inj hfw).symm
    · obtain ⟨u, hup, hst, het, hx, hrel, hdone, hfb, hrm⟩ := h
      rw [hfb] at hfw
      rw [proxyPrevention_raw piiScan sha pcfg r m s hr] at hfw
      simp only [Option.getD] at hfw
      rw [hr] at hfw
      exact (Option.some.inj hfw).symm
  · intro hst
    rcases handleGateway_cases piiScan sha pcfg r m upstream webhook runID now with
      h | h | h | h | h | h | h
    · rw [h.1] at hst
      omega
    · rw [h.1] at hst
      omega
    · rw [h.1] at hst
      omega
    · obtain ⟨g2, v, hg2, hap, h429, _⟩ := h
      rw [h429] at hst
      omega
    · obtain ⟨hup, h502, _⟩ := h
      exact Or.inr ⟨h502, Or.inl hup⟩
    · obtain ⟨u, hup, h502, het, hx, hrel, hdone, _⟩ := h
      exact Or.inr ⟨h502, Or.inr hdone⟩
    · obtain ⟨u, hup, _, _, _, hrel, _⟩ := h
      exact Or.inl hrel

/-- C6 witness: under the model-downgrade configuration, a session cost
past the threshold forces a rewrite of a non-object body; the rewrite
fails, leaving no modified body and no block; through the proxy the
original raw body is forwarded, and with no upstream reply the only 5xx
is the transport-failure 502. -/
theorem prevention_rewrite_failure_witness :
    (evaluatePrevention piiScanNone (some dgCfg) (JsonLite.raw "not json") "hello" []
        "gpt-4" 100000000).modifiedBody = none ∧
    (evaluatePrevention piiScanNone (some dgCfg) (JsonLite.raw "not json") "hello" []
        "gpt-4" 100000000).blocked = false ∧
    dgReq.body = JsonLite.raw "not json" ∧
    ((handleGateway piiScanNone shaC dgProxy dgReq [] none none "rid" 0).1.forwardedBody =
        some (JsonLite.raw "not json") →
      JsonLite.raw "not json" = JsonLite.raw "not json") ∧
    (500 : Nat) ≤ (handleGateway piiScanNone shaC dgProxy dgReq [] none none
        "rid" 0).1.status ∧
    ((handleGateway piiScanNone shaC dgProxy dgReq [] none none "rid" 0).1.relayed = true ∨
      ((handleGateway piiScanNone shaC dgProxy dgReq [] none none "rid" 0).1.status = 502 ∧
        ((none : Option UpstreamResp) = none ∨
          (handleGateway piiScanNone shaC dgProxy dgReq [] none none
            "rid" 0).1.upstreamDone = true))) := by
  refine ⟨?_, ?_, rfl, ?_, by decide, ?_⟩
  · exact (prevention_rewrite_failure piiScanNone shaC (some dgCfg) dgCfg
      "not json" "hello" [] "gpt-4" 100000000 dgProxy dgReq [] none none "rid" 0).1
  · exact (prevention_rewrite_failure piiScanNone shaC (some dgCfg) dgCfg
      "not json" "hello" [] "gpt-4" 100000000 dgProxy dgReq [] none none "rid" 0).2.1
      (by decide) (by decide)
  · intro hfw
    exact (prevention_rewrite_failure piiScanNone shaC (some dgCfg) dgCfg
      "not json" "hello" [] "gpt-4" 100000000 dgProxy dgReq [] none none "rid" 0).2.2.1
      rfl (JsonLite.raw "not json") hfw
  · exact (prevention_rewrite_failure piiScanNone shaC (some dgCfg) dgCfg
      "not json" "hello" [] "gpt-4" 100000000 dgProxy dgReq [] none none "rid" 0).2.2.2
      (by decide)

/-! ## C7 — approval flow -/

/-- C7 counterexample: with approval enabled, a webhook configured and
an empty approval.rules list, RequestApproval consults the webhook (and
returns its answer) for a violation whose rule is not listed anywhere,
so "only listed rules trigger a webhook call" fails as stated. -/
theorem approval_emptyRules_counterexample :
    requestApproval ⟨true, "http://hook.example", 5, [], false⟩
        ⟨"token_budget", "budget exceeded", "sess-1"⟩ (some true) = (true, true) ∧
    "token_budget" ∉ ([] : List String) := by
  exact ⟨rfl, by decide⟩

/-- C7 (amended): when approval.rules is non-empty, a violation whose
rule is not listed yields not-approved without consulting the webhook
(with an empty list every violation is sent); on webhook transport
failure or timeout the decision equals fallback_allow; and whenever the
approval step approves a violation the proxy does not enforce it — the
response is never the guardrail 429 envelope and the session is kept. -/
theorem approval_flow (cfg : ApprovalConfig) (v : Violation) (webhook : Option Bool)
    (piiScan : PIIConfig → String → Bool × String) (sha : String → String)
    (pcfg : ProxyCfg) (g : GuardConfig) (r : ProxyReq) (m : SessionMap)
    (upstream : Option UpstreamResp) (runID : String) (now : Int) :
    (cfg.enabled = true → cfg.webhookURL ≠ "" → cfg.rules ≠ [] → v.rule ∉ cfg.rules →
      requestApproval cfg v webhook = (false, false)) ∧
    (cfg.enabled = true → cfg.webhookURL ≠ "" → (cfg.rules = [] ∨ v.rule ∈ cfg.rules) →
      requestApproval cfg v none = (cfg.fallbackAllow, true)) ∧
    (pcfg.guardrails = some g →
      (∀ w : Violation, (requestApproval g.prevention.approval w webhook).1 = true) →
      (handleGateway piiScan sha pcfg r m upstream webhook runID now).1.errType ≠
          "agent_guardrail_triggered" ∧
      (handleGateway piiScan sha pcfg r m upstream webhook runID now).1.sessionRemoved
          = false) := by
  refine ⟨?_, ?_, ?_⟩
  · intro hen hurl hrules hmem
    simp only [requestApproval]
    rw [if_neg (by simp [hen, hurl])]
    rw [if_pos (by simp [hrules, hmem, List.isEmpty_iff])]
  · intro hen hurl hsel
    simp only [requestApproval]
    rw [if_neg (by simp [hen, hurl])]
    rcases hsel with hr | hr
    · rw [if_neg (by simp [hr])]
    · rw [if_neg (by simp [hr])]
  · intro hg hap
    rcases handleGateway_cases piiScan sha pcfg r m upstream webhook runID now with
      h | h | h | h | h | h | h
    · exact ⟨by rw [h.2.1]; decide, h.2.2.2.2.2.2⟩
    · exact ⟨by rw [h.2.1]; decide, h.2.2.2.2.2.2⟩
    · exact ⟨by rw [h.2.1]; decide, h.2.2.2.2.2.2⟩
    · obtain ⟨g2, v2, hg2, hap2, hst, het, her, hx, hrel, hdone, hfw, hrm⟩ := h
      rw [hg] at hg2
      cases Option.some.inj hg2
      rw [hap v2] at hap2
      cases hap2
    · obtain ⟨hup, hst, het, hx, hrel, hdone, hfw, hrm⟩ := h
      exact ⟨by rw [het]; decide, hrm⟩
    · obtain ⟨u, hup, hst, het, hx, hrel, hdone, hfw, hrm⟩ := h
      exact ⟨by rw [het]; decide, hrm⟩
    · obtain ⟨u, hup, hst, het, hx, hrel, hdone, hfw, hrm⟩ := h
      exact ⟨by rw [het]; decide, hrm⟩

/-- C7 witness: the three amended clauses at concrete inputs — an
unlisted rule is rejected without a call, a listed rule falls back to
fallback_allow on webhook failure, and an approving webhook leaves a
prompt-looping session unenforced. -/
theorem approval_flow_witness :
    requestApproval ⟨true, "http://hook.example", 5, ["token_budget"], true⟩
        ⟨"error_spiral", "m", "s"⟩ (some true) = (false, false) ∧
    requestApproval ⟨true, "http://hook.example", 5, ["token_budget"], true⟩
        ⟨"token_budget", "m", "s"⟩ none = (true, true) ∧
    ((handleGateway piiScanNone shaC
        ⟨"http://upstream", "",
          some { loopOnlyCfg with prevention := ⟨⟨false, [], []⟩,
            ⟨false, false, false, false, false, ""⟩, ⟨false, [], 0, []⟩,
            ⟨true, "http://hook.example", 5, [], true⟩⟩ }, true⟩
        loopReq [] (some ⟨200, false, true⟩) (some true) "rid" 0).1.errType ≠
        "agent_guardrail_triggered" ∧
      (handleGateway piiScanNone shaC
        ⟨"http://upstream", "",
          some { loopOnlyCfg with prevention := ⟨⟨false, [], []⟩,
            ⟨false, false, false, false, false, ""⟩, ⟨false, [], 0, []⟩,
            ⟨true, "http://hook.example", 5, [], true⟩⟩ }, true⟩
        loopReq [] (some ⟨200, false, true⟩) (some true) "rid" 0).1.sessionRemoved = false) := by
  refine ⟨?_, ?_, ?_⟩
  · exact (approval_flow ⟨true, "http://hook.example", 5, ["token_budget"], true⟩
      ⟨"error_spiral", "m", "s"⟩ (some true) piiScanNone shaC
      ⟨"", "", none, false⟩ loopOnlyCfg loopReq [] none "rid" 0).1
      rfl (by decide) (by decide) (by decide)
  · exact (approval_flow ⟨true, "http://hook.example", 5, ["token_budget"], true⟩
      ⟨"token_budget", "m", "s"⟩ (some true) piiScanNone shaC
      ⟨"", "", none, false⟩ loopOnlyCfg loopReq [] none "rid" 0).2.1
      rfl (by decide) (by decide)
  · exact (approval_flow ⟨true, "http://hook.example", 5, [], true⟩
      ⟨"x", "m", "s"⟩ (some true) piiScanNone shaC
      ⟨"http://upstream", "",
        some { loopOnlyCfg with prevention := ⟨⟨false, [], []⟩,
          ⟨false, false, false, false, false, ""⟩, ⟨false, [], 0, []⟩,
          ⟨true, "http://hook.example", 5, [], true⟩⟩ }, true⟩
      { loopOnlyCfg with prevention := ⟨⟨false, [], []⟩,
          ⟨false, false, false, false, false, ""⟩, ⟨false, [], 0, []⟩,
          ⟨true, "http://hook.example", 5, [], true⟩⟩ }
      loopReq [] (some ⟨200, false, true⟩) "rid" 0).2.2 rfl (fun w => rfl)

/-! ## C4 — loop-detection scenario (spec scenario 4) -/

/-- C4: running the literal spec scenario — loop detection 0.80 / 3 /
60 s, no approval configuration, the same session, four identical
prompts — the code returns 200 for every request and never a 429: the
prompt_loop violation does fire during the third request (the
just-recorded prompt counts towards max_similar_prompts), but
RequestApproval returns approved=true whenever approval is disabled, so
the proxy treats every violation as overridden and enforces nothing. -/
theorem promptLoop_never_enforced :
    ((runSeq piiScanNone shaC loopProxyCfg
        (List.replicate 4 (loopReq, some ⟨200, false, true⟩, none, "rid", 0)) []).1.map
      (fun o => (o.status, o.errRule)) = [(200, ""), (200, ""), (200, ""), (200, "")]) ∧
    ((evaluate (some loopOnlyCfg)
        (recordRequest
          ((getOrCreate
            ((runSeq piiScanNone shaC loopProxyCfg
              (List.replicate 2 (loopReq, some ⟨200, false, true⟩, none, "rid", 0)) []).2)
            "s1" 0).2)
          "s1" loopPrompt [] 0)
        "s1" ⟨loopPrompt, [], "gpt-4"⟩ 0).map (fun v => v.rule) = some "prompt_loop") ∧
    (requestApproval loopOnlyCfg.prevention.approval
        ⟨"prompt_loop", "msg", "s1"⟩ none).1 = true := by
  refine ⟨by decide, by decide, by decide⟩

/-! ## C1 — audit chain invariants -/

theorem endHash_append (sha : String → String) (prev : String) (l1 l2 : List ChainEntry) :
    endHash sha prev (l1 ++ l2) = endHash sha (endHash sha prev l1) l2 := by
  induction l1 generalizing prev with
  | nil => rfl
  | cons e rest ih => simp [endHash, ih]

theorem chainOk_append_singleton (sha : String → String) (hmac : String → String → String)
    (secret : String) : ∀ (l : List ChainEntry) (prev : String) (e : ChainEntry),
    chainOk sha hmac secret prev l → e.prevHash = endHash sha prev l →
    e.signature = signEntry hmac secret e → chainOk sha hmac secret prev (l ++ [e])
  | [], prev, e, _, hprev, hsig => ⟨hprev, hsig, trivial⟩
  | f :: rest, prev, e, hl, hprev, hsig =>
    ⟨hl.1, hl.2.1, chainOk_append_singleton sha hmac secret rest (sha f.json) e hl.2.2
      hprev hsig⟩

theorem verifyFrom_true_iff (sha : String → String) (hmac : String → String → String)
    (secret : String) : ∀ (l : List ChainEntry) (prev : String),
    (verifyFrom sha hmac secret prev l).1 = true ↔ chainOk sha hmac secret prev l
  | [], prev => by simp [verifyFrom, chainOk]
  | e :: rest, prev => by
    simp only [verifyFrom, chainOk]
    by_cases h1 : e.prevHash = prev
    · rw [if_neg (by simp [h1])]
      by_cases h2 : e.signature = signEntry hmac secret e
      · rw [if_neg (by simp [h2])]
        rw [verifyFrom_true_iff sha hmac secret rest (sha e.json)]
        simp [h1, h2]
      · rw [if_pos (by simp [h2])]
        simp [h1, h2]
    · rw [if_pos (by simp [h1])]
      simp [h1]

theorem verifyFrom_cons_ok (sha : String → String) (hmac : String → String → String)
    (secret prev : String) (e : ChainEntry) (l : List ChainEntry)
    (h1 : e.prevHash = prev) (h2 : e.signature = signEntry hmac secret e) :
    verifyFrom sha hmac secret prev (e :: l) = verifyFrom sha hmac secret (sha e.json) l := by
  simp [verifyFrom, h1, h2]

theorem verifyFrom_cons_badsig (sha : String → String) (hmac : String → String → String)
    (secret prev : String) (e : ChainEntry) (l : List ChainEntry)
    (h1 : e.prevHash = prev) (h2 : e.signature ≠ signEntry hmac secret e) :
    verifyFrom sha hmac secret prev (e :: l) =
      (false, e.sequence, some ("chain broken at sequence " ++ toString e.sequence ++
        ": signature mismatch")) := by
  simp [verifyFrom, h1, h2]

theorem chainInv_new (sha : String → String) (hmac : String → String → String)
    (secret : String) : ChainInv sha hmac (newAuditChain secret) := by
  refine ⟨rfl, ?_, trivial, rfl⟩
  intro i h
  simp [newAuditChain] at h

theorem chainInv_append (sha : String → String) (hmac : String → String → String)
    (ac : AuditChain) (hinv : ChainInv sha hmac ac) (runID recordJSON : String) (now : Int) :
    ChainInv sha hmac (ac.append sha hmac runID recordJSON now).2 := by
  obtain ⟨hseq, hat, hok, hlast⟩ := hinv
  refine ⟨?_, ?_, ?_, ?_⟩
  · simp [AuditChain.append, hseq]
  · intro i h
    simp only [AuditChain.append, List.length_append, List.length_cons,
      List.length_nil] at h
    rcases Nat.lt_or_ge i ac.entries.length with hi | hi
    · have := hat i hi
      simp only [AuditChain.append, List.get_eq_getElem] at this ⊢
      rw [List.getElem_append_left hi]
      exact this
    · have hieq : i = ac.entries.length := by omega
      subst hieq
      simp only [AuditChain.append, List.get_eq_getElem]
      rw [List.getElem_append_right (Nat.le_refl _)]
      simp [hseq]
  · refine chainOk_append_singleton sha hmac ac.secret ac.entries "" _ hok ?_ rfl
    simpa using hlast
  · simp only [AuditChain.append]
    rw [endHash_append]
    rfl

theorem chainInv_appendAll (sha : String → String) (hmac : String → String → String)
    (secret : String) (items : List (String × String × Int)) :
    ChainInv sha hmac (appendAll sha hmac secret items) := by
  suffices h : ∀ ac, ChainInv sha hmac ac → ChainInv sha hmac
      (items.foldl (fun ac it => (ac.append sha hmac it.1 it.2.1 it.2.2).2) ac) by
    exact h _ (chainInv_new sha hmac secret)
  induction items with
  | nil => exact fun ac h => h
  | cons it rest ih =>
    intro ac h
    exact ih _ (chainInv_append sha hmac ac h it.1 it.2.1 it.2.2)

theorem appendAll_secret (sha : String → String) (hmac : String → String → String)
    (secret : String) (items : List (String × String × Int)) :
    (appendAll sha hmac secret items).secret = secret := by
  suffices h : ∀ ac : AuditChain, ((items.foldl (fun ac it =>
      (ac.append sha hmac it.1 it.2.1 it.2.2).2) ac).secret = ac.secret) by
    exact h (newAuditChain secret)
  induction items with
  | nil => exact fun ac => rfl
  | cons it rest ih => exact fun ac => ih _

theorem appendAll_length (sha : String → String) (hmac : String → String → String)
    (secret : String) (items : List (String × String × Int)) :
    (appendAll sha hmac secret items).entries.length = items.length := by
  suffices h : ∀ ac : AuditChain, ((items.foldl (fun ac it =>
      (ac.append sha hmac it.1 it.2.1 it.2.2).2) ac).entries.length =
      ac.entries.length + items.length) by
    simpa [appendAll, newAuditChain] using h (newAuditChain secret)
  induction items with
  | nil => intro ac; simp
  | cons it rest ih =>
    intro ac
    simp only [List.foldl_cons]
    rw [ih]
    simp [AuditChain.append]
    omega

theorem chainOk_get_zero (sha : String → String) (hmac : String → String → String)
    (secret prev : String) (l : List ChainEntry) (hok : chainOk sha hmac secret prev l)
    (h : 0 < l.length) : (l.get ⟨0, h⟩).prevHash = prev := by
  cases l with
  | nil => simp at h
  | cons e rest => exact hok.1

theorem chainOk_link (sha : String → String) (hmac : String → String → String)
    (secret : String) : ∀ (l : List ChainEntry) (prev : String),
    chainOk sha hmac secret prev l →
    ∀ i (h1 : i + 1 < l.length) (h2 : i < l.length),
      (l.get ⟨i + 1, h1⟩).prevHash = sha ((l.get ⟨i, h2⟩).json)
  | [], _, _, i, h1, _ => by simp at h1
  | e :: rest, prev, hok, i, h1, h2 => by
    match i with
    | 0 =>
      cases rest with
      | nil => simp at h1
      | cons f rest2 =>
        simpa using chainOk_get_zero sha hmac secret (sha e.json) (f :: rest2) hok.2.2
          (by simp)
    | Nat.succ j =>
      simpa using chainOk_link sha hmac secret rest (sha e.json) hok.2.2 j
        (by simpa using h1) (by simpa using h2)

/-- C1: for a chain built by repeated Append calls, sequence numbers are
exactly 1, 2, 3, …; the first entry's prev_hash is ""; each later
entry's prev_hash is the SHA-256 of the previous entry's JSON
serialization; Verify is valid exactly when every prev_hash link and
every HMAC signature over "sequence|run_id|record_hash|prev_hash"
recomputes (so a freshly built chain verifies); and after appending
three records and tampering with the middle entry's record_hash,
Verify returns (false, 2, "chain broken at sequence 2: signature
mismatch"), provided HMAC-SHA256 does not collide on the tampered
signing message (the cryptographic fact the design relies on). -/
theorem auditChain_claims (sha : String → String) (hmac : String → String → String)
    (secret : String) (items : List (String × String × Int)) (ac : AuditChain) :
    (∀ i (h : i < (appendAll sha hmac secret items).entries.length),
      ((appendAll sha hmac secret items).entries.get ⟨i, h⟩).sequence = (i : Int) + 1) ∧
    (∀ h : 0 < (appendAll sha hmac secret items).entries.length,
      ((appendAll sha hmac secret items).entries.get ⟨0, h⟩).prevHash = "") ∧
    (∀ i (h1 : i + 1 < (appendAll sha hmac secret items).entries.length)
        (h2 : i < (appendAll sha hmac secret items).entries.length),
      ((appendAll sha hmac secret items).entries.get ⟨i + 1, h1⟩).prevHash =
        sha (((appendAll sha hmac secret items).entries.get ⟨i, h2⟩).json)) ∧
    ((ac.verify sha hmac).1 = true ↔ chainOk sha hmac ac.secret "" ac.entries) ∧
    ((appendAll sha hmac secret items).verify sha hmac).1 = true ∧
    (hmac secret (sigMsg { (appendAll sha hmac secret
          [("run-1", "rec-1", 1), ("run-2", "rec-2", 2), ("run-3", "rec-3", 3)]).entries.getD 1
          default with recordHash := "tampered-hash" }) ≠
        ((appendAll sha hmac secret
          [("run-1", "rec-1", 1), ("run-2", "rec-2", 2), ("run-3", "rec-3", 3)]).entries.getD 1
          default).signature →
      AuditChain.verify sha hmac
        { appendAll sha hmac secret
            [("run-1", "rec-1", 1), ("run-2", "rec-2", 2), ("run-3", "rec-3", 3)] with
          entries := (appendAll sha hmac secret
            [("run-1", "rec-1", 1), ("run-2", "rec-2", 2), ("run-3", "rec-3", 3)]).entries.set 1
            { (appendAll sha hmac secret
                [("run-1", "rec-1", 1), ("run-2", "rec-2", 2),
                  ("run-3", "rec-3", 3)]).entries.getD 1 default with
              recordHash := "tampered-hash" } } =
        (false, 2, some "chain broken at sequence 2: signature mismatch")) := by
  obtain ⟨hseq, hat, hok, hlast⟩ := chainInv_appendAll sha hmac secret items
  refine ⟨hat, ?_, ?_, ?_, ?_, ?_⟩
  · intro h
    exact chainOk_get_zero sha hmac _ "" _ hok h
  · intro i h1 h2
    exact chainOk_link sha hmac _ _ "" hok i h1 h2
  · exact verifyFrom_true_iff sha hmac ac.secret ac.entries ""
  · exact (verifyFrom_true_iff sha hmac (appendAll sha hmac secret items).secret
      (appendAll sha hmac secret items).entries "").mpr hok
  · intro htam
    obtain ⟨hseq3, hat3, hok3, hlast3⟩ := chainInv_appendAll sha hmac secret
      [("run-1", "rec-1", 1), ("run-2", "rec-2", 2), ("run-3", "rec-3", 3)]
    have hlen3 : (appendAll sha hmac secret
        [("run-1", "rec-1", 1), ("run-2", "rec-2", 2), ("run-3", "rec-3", 3)]).entries.length
        = 3 := appendAll_length sha hmac secret _
    obtain ⟨e1, e2, e3, hent⟩ := List.length_eq_three.mp hlen3
    have hsec3 := appendAll_secret sha hmac secret
      [("run-1", "rec-1", 1), ("run-2", "rec-2", 2), ("run-3", "rec-3", 3)]
    rw [hent] at htam hok3 hat3 ⊢
    have he2seq : e2.sequence = 2 := by
      have h2 := hat3 1 (by simp)
      simpa using h2
    simp only [List.getD_cons_succ, List.getD_cons_zero] at htam ⊢
    simp only [List.set_cons_succ, List.set_cons_zero] at htam ⊢
    have hok1 : e1.prevHash = "" := hok3.1
    have hsig1 : e1.signature = signEntry hmac secret e1 := by
      have h1 := hok3.2.1
      rwa [hsec3] at h1
    have hprev2 : e2.prevHash = sha e1.json := hok3.2.2.1
    have hcond : ¬ (e2.signature = signEntry hmac secret
        { e2 with recordHash := "tampered-hash" }) := by
      intro hc
      exact htam (by simpa [signEntry] using hc.symm)
    simp only [AuditChain.verify, hsec3]
    simp only [verifyFrom, hok1, hsig1, ne_eq, not_true_eq_false,
      not_false_eq_true, if_false, if_true]
    rw [if_neg (by simp [hprev2]), if_pos hcond, he2seq]
    decide

/-- C1 witness: the tamper scenario evaluated over the injective
stand-in hash and HMAC under key K — the collision-freeness hypothesis
holds there and Verify pinpoints sequence 2 with the exact reason. -/
theorem auditChain_claims_witness :
    (hmacC "K" (sigMsg { (appendAll shaC hmacC "K"
          [("run-1", "rec-1", 1), ("run-2", "rec-2", 2), ("run-3", "rec-3", 3)]).entries.getD 1
          default with recordHash := "tampered-hash" }) ≠
        ((appendAll shaC hmacC "K"
          [("run-1", "rec-1", 1), ("run-2", "rec-2", 2), ("run-3", "rec-3", 3)]).entries.getD 1
          default).signature) ∧
    AuditChain.verify shaC hmacC
        { appendAll shaC hmacC "K"
            [("run-1", "rec-1", 1), ("run-2", "rec-2", 2), ("run-3", "rec-3", 3)] with
          entries := (appendAll shaC hmacC "K"
            [("run-1", "rec-1", 1), ("run-2", "rec-2", 2), ("run-3", "rec-3", 3)]).entries.set 1
            { (appendAll shaC hmacC "K"
                [("run-1", "rec-1", 1), ("run-2", "rec-2", 2),
                  ("run-3", "rec-3", 3)]).entries.getD 1 default with
              recordHash := "tampered-hash" } } =
      (false, 2, some "chain broken at sequence 2: signature mismatch") := by
  refine ⟨by decide, ?_⟩
  exact (auditChain_claims shaC hmacC "K"
    [("run-1", "rec-1", 1), ("run-2", "rec-2", 2), ("run-3", "rec-3", 3)]
    (newAuditChain "K")).2.2.2.2.2 (by decide)

end AirGateway
